import Mathlib

/-!
Verification development for the thebrowserlab synthetic-data engine
(domain randomization, bounding-box projection, annotation export).

The definitions below are shallow embeddings of the TypeScript source:

* `SyntheticDataPanel.tsx` (first panel component): `handleRandomizeScene`,
  `restoreOriginalScene`, baseline capture, `formatAsCOCO`,
  `formatAsPascalVOC`, `formatAsYOLO`.
* `SyntheticDataPanel.tsx` (second panel component): `handleGenerate`
  (capture sweep with its try/catch/finally control flow).
* `utils/syntheticData/generators.ts`: `createRandomizedScene`,
  `generateAnnotationsForImage` (projection, clipping, rejection).
* the unnamed duplicate panel (`part_001`): `handleRandomizeScene`
  (restore-first variant) and `generateSyntheticData`.

JavaScript numbers are modelled as rationals.  The irrational constants
`Math.PI` and `tan(fov/2)` that feed the rotation jitter and the projective
camera are not rational; they are passed as explicit rational parameters
(`piQ`, `tanHalfFov`) and every theorem quantifies over them.
-/

/-- Three JS floats `{x, y, z}` (a THREE.Vector3 / Euler), as rationals. -/
structure Vec3 where
  x : ℚ
  y : ℚ
  z : ℚ
deriving DecidableEq

/-- An RGB color with channels in JS floats, as rationals. -/
structure ColorRGB where
  r : ℚ
  g : ℚ
  b : ℚ
deriving DecidableEq

/-- THREE.MathUtils.clamp(v, 0, 1) = Math.max(0, Math.min(1, v)). -/
def clamp01 (v : ℚ) : ℚ := max 0 (min 1 v)

/-- JS `Math.round`: round half toward positive infinity. -/
def jsRound (q : ℚ) : ℤ := ⌊q + 1/2⌋

/-- A scene object handle as the panels see it: a THREE.Object3D with a
mutable pose, `userData.isLight` / `userData.isCamera` tags, the runtime
type tests `instanceof THREE.Light` / `instanceof THREE.DirectionalLight`,
and the light-specific `intensity` / `color` fields. -/
structure SceneObject where
  uuid : ℕ
  position : Vec3
  rotation : Vec3
  scale : Vec3
  userDataIsLight : Bool
  userDataIsCamera : Bool
  isThreeLight : Bool
  isDirLight : Bool
  intensity : ℚ
  color : ColorRGB
deriving DecidableEq

/-- Baseline snapshot of one object's transform (`originalTransforms` entry). -/
structure TransformEntry where
  position : Vec3
  rotation : Vec3
  scale : Vec3
deriving DecidableEq

/-- Baseline snapshot of one light's properties (`originalLights` entry). -/
structure LightEntry where
  intensity : ℚ
  color : ColorRGB
deriving DecidableEq

def transformEntryOf (o : SceneObject) : TransformEntry :=
  ⟨o.position, o.rotation, o.scale⟩

def lightEntryOf (o : SceneObject) : LightEntry :=
  ⟨o.intensity, o.color⟩

/-- JS `Map.get`: the maps below are association lists in which later
`Map.set` calls are stored in front, so the first match is the value set
last, matching JS `Map` semantics. -/
def mapGet {α : Type} (m : List (ℕ × α)) (k : ℕ) : Option α :=
  (m.find? (fun p => p.1 == k)).map Prod.snd

/-- Baseline capture of `originalTransforms`: `objects.forEach(obj =>
transforms.set(obj.uuid, {position, rotation, scale}))`.  Insertion order
with overwrite is represented by reversing, so `mapGet` sees the last set. -/
def captureTransforms (objs : List SceneObject) : List (ℕ × TransformEntry) :=
  (objs.map (fun o => (o.uuid, transformEntryOf o))).reverse

/-- Baseline capture of `originalLights`: recorded only for objects with
`userData.isLight && obj instanceof THREE.Light`. -/
def captureLights (objs : List SceneObject) : List (ℕ × LightEntry) :=
  ((objs.filter (fun o => o.userDataIsLight && o.isThreeLight)).map
    (fun o => (o.uuid, lightEntryOf o))).reverse

/-- `restoreOriginalScene` applied to one object: copy the baseline
transform back when present, and the baseline light properties back when
the object is a light and has a recorded entry. -/
def restoreObj (tr : List (ℕ × TransformEntry)) (li : List (ℕ × LightEntry))
    (o : SceneObject) : SceneObject :=
  let o1 :=
    match mapGet tr o.uuid with
    | some t => { o with position := t.position, rotation := t.rotation, scale := t.scale }
    | none => o
  if o1.userDataIsLight && o1.isThreeLight then
    match mapGet li o1.uuid with
    | some l => { o1 with intensity := l.intensity, color := l.color }
    | none => o1
  else o1

/-- `restoreOriginalScene` from the first panel component: restore every
object of the scene from the captured baselines. -/
def restoreOriginalScene (tr : List (ℕ × TransformEntry))
    (li : List (ℕ × LightEntry)) (objs : List SceneObject) : List SceneObject :=
  objs.map (restoreObj tr li)

/-- Position block of the first panel's `handleRandomizeScene`:
start from the baseline position, add uniform jitter on x and z, and on y
add `Math.max(0, jitter)` so the object never drops below its baseline
height.  `s` is the stream of `Math.random()` results, `k` the global
cursor into it; three values are consumed. -/
def posStep (st : Bool) (rangeX rangeY rangeZ : ℚ)
    (tr : List (ℕ × TransformEntry)) (s : ℕ → ℚ)
    (o : SceneObject) (k : ℕ) : SceneObject × ℕ :=
  if !o.userDataIsLight && st then
    match mapGet tr o.uuid with
    | some t =>
      ({ o with position :=
          ⟨ t.position.x + (s k - 1/2) * rangeX * 2
          , t.position.y + max 0 ((s (k+1) - 1/2) * rangeY * 2)
          , t.position.z + (s (k+2) - 1/2) * rangeZ * 2 ⟩ }, k + 3)
    | none => (o, k)
  else (o, k)

/-- Rotation block of the first panel's `handleRandomizeScene`: start from
the baseline rotation and add jitter of `range * piQ / 180 * 2` half-width,
where `piQ` stands for the irrational `Math.PI`.  Applies to non-lights and
to directional lights. -/
def rotStep (piQ : ℚ) (st : Bool) (rangeX rangeY rangeZ : ℚ)
    (tr : List (ℕ × TransformEntry)) (s : ℕ → ℚ)
    (o : SceneObject) (k : ℕ) : SceneObject × ℕ :=
  if (!o.userDataIsLight || o.isDirLight) && st then
    match mapGet tr o.uuid with
    | some t =>
      ({ o with rotation :=
          ⟨ t.rotation.x + (s k - 1/2) * (rangeX * piQ / 180) * 2
          , t.rotation.y + (s (k+1) - 1/2) * (rangeY * piQ / 180) * 2
          , t.rotation.z + (s (k+2) - 1/2) * (rangeZ * piQ / 180) * 2 ⟩ }, k + 3)
    | none => (o, k)
  else (o, k)

/-- Scale block of the first panel's `handleRandomizeScene`: start from the
baseline scale; one factor is always drawn, and in the non-uniform branch
three further independent factors are drawn (the first draw is unused,
exactly as in the source). -/
def scaleStep (st : Bool) (uniform : Bool) (rmin rmax : ℚ)
    (tr : List (ℕ × TransformEntry)) (s : ℕ → ℚ)
    (o : SceneObject) (k : ℕ) : SceneObject × ℕ :=
  if !o.userDataIsLight && st then
    match mapGet tr o.uuid with
    | some t =>
      let scaleFactor := rmin + s k * (rmax - rmin)
      if uniform then
        ({ o with scale := ⟨t.scale.x * scaleFactor, t.scale.y * scaleFactor,
                            t.scale.z * scaleFactor⟩ }, k + 1)
      else
        ({ o with scale :=
            ⟨ t.scale.x * (rmin + s (k+1) * (rmax - rmin))
            , t.scale.y * (rmin + s (k+2) * (rmax - rmin))
            , t.scale.z * (rmin + s (k+3) * (rmax - rmin)) ⟩ }, k + 4)
    | none => (o, k)
  else (o, k)

/-- Light block of the first panel's `handleRandomizeScene`: intensity is
the baseline intensity times a drawn factor; when `colorVariation > 0` the
color is reset to the baseline color and each channel jittered and clamped
to `[0, 1]`. -/
def lightStep (st : Bool) (imin imax colorVariation : ℚ)
    (li : List (ℕ × LightEntry)) (s : ℕ → ℚ)
    (o : SceneObject) (k : ℕ) : SceneObject × ℕ :=
  if o.userDataIsLight && o.isThreeLight && st then
    match mapGet li o.uuid with
    | some l =>
      let o1 := { o with intensity := l.intensity * (imin + s k * (imax - imin)) }
      if 0 < colorVariation then
        ({ o1 with color :=
            ⟨ clamp01 (l.color.r + (s (k+1) - 1/2) * colorVariation * 2)
            , clamp01 (l.color.g + (s (k+2) - 1/2) * colorVariation * 2)
            , clamp01 (l.color.b + (s (k+3) - 1/2) * colorVariation * 2) ⟩ }, k + 4)
      else (o1, k + 1)
    | none => (o, k)
  else (o, k)

/-- The nested randomization configuration of the panels
(`RandomizationSettings`); `rmin`/`rmax`, `imin`/`imax` are the source's
`range.min`/`range.max` and `intensityRange.min`/`intensityRange.max`. -/
structure RandomizationSettings where
  enabled : Bool
  positionEnabled : Bool
  positionRange : Vec3
  rotationEnabled : Bool
  rotationRange : Vec3
  scaleEnabled : Bool
  scaleUniform : Bool
  rmin : ℚ
  rmax : ℚ
  lightingEnabled : Bool
  imin : ℚ
  imax : ℚ
  colorVariation : ℚ
deriving DecidableEq

/-- One object's pass through the first panel's `handleRandomizeScene`
body: cameras are skipped, then position, rotation, scale and light blocks
run in source order, threading the `Math.random()` cursor. -/
def randomizeObject (piQ : ℚ) (st : RandomizationSettings)
    (tr : List (ℕ × TransformEntry)) (li : List (ℕ × LightEntry))
    (s : ℕ → ℚ) (o : SceneObject) (k : ℕ) : SceneObject × ℕ :=
  if o.userDataIsCamera then (o, k)
  else
    let p1 := posStep st.positionEnabled st.positionRange.x st.positionRange.y
      st.positionRange.z tr s o k
    let p2 := rotStep piQ st.rotationEnabled st.rotationRange.x st.rotationRange.y
      st.rotationRange.z tr s p1.1 p1.2
    let p3 := scaleStep st.scaleEnabled st.scaleUniform st.rmin st.rmax tr s p2.1 p2.2
    lightStep st.lightingEnabled st.imin st.imax st.colorVariation li s p3.1 p3.2

/-- `objects.forEach` over the randomization body, in scene order. -/
def randomizeList (piQ : ℚ) (st : RandomizationSettings)
    (tr : List (ℕ × TransformEntry)) (li : List (ℕ × LightEntry))
    (s : ℕ → ℚ) : List SceneObject → ℕ → List SceneObject × ℕ
  | [], k => ([], k)
  | o :: os, k =>
    let p := randomizeObject piQ st tr li s o k
    let rest := randomizeList piQ st tr li s os p.2
    (p.1 :: rest.1, rest.2)

/-- The first panel's `handleRandomizeScene`: no-op when the master
`enabled` flag is off, otherwise randomize every object from its captured
baseline. -/
def handleRandomizeScene (piQ : ℚ) (st : RandomizationSettings)
    (tr : List (ℕ × TransformEntry)) (li : List (ℕ × LightEntry))
    (s : ℕ → ℚ) (objs : List SceneObject) (k : ℕ) : List SceneObject × ℕ :=
  if st.enabled then randomizeList piQ st tr li s objs k else (objs, k)

/-! ## generators.ts: `createRandomizedScene` -/

/-- A clone placed into the randomized throwaway scene by
`createRandomizedScene`.  Object clones carry
`userData.originalUuid = obj.uuid`; light clones and the ground plane do
not (their `userData` has no `originalUuid`). -/
structure CloneObject where
  originalUuid : Option ℕ
  position : Vec3
  rotation : Vec3
  scale : Vec3
  userDataIsLight : Bool
  isThreeLight : Bool
  intensity : ℚ
  color : ColorRGB
deriving DecidableEq

/-- An `objectId -> {classId}` entry of the annotation store. -/
structure ObjAnno where
  classId : ℕ
deriving DecidableEq

/-- An annotation class `{id, name}` of the class registry (the `color`
field is never read by the functions modelled here). -/
structure AnnoClass where
  id : ℕ
  name : String
deriving DecidableEq

/-- Clone-and-randomize of one annotated, non-light, non-camera object in
`createRandomizedScene` (generators.ts): position jitter clamps y to
`Math.max(0, clone.position.y + jitter)` — a clamp against 0, not against
the baseline height; rotation and scale work as in the panel. -/
def randomizedClone (piQ : ℚ) (st : RandomizationSettings) (s : ℕ → ℚ)
    (o : SceneObject) (k : ℕ) : CloneObject × ℕ :=
  let c0 : CloneObject :=
    ⟨some o.uuid, o.position, o.rotation, o.scale,
     o.userDataIsLight, o.isThreeLight, o.intensity, o.color⟩
  let p1 :=
    if st.positionEnabled then
      (({ c0 with position :=
          ⟨ c0.position.x + (s k - 1/2) * st.positionRange.x * 2
          , max 0 (c0.position.y + (s (k+1) - 1/2) * st.positionRange.y * 2)
          , c0.position.z + (s (k+2) - 1/2) * st.positionRange.z * 2 ⟩ } : CloneObject),
       k + 3)
    else (c0, k)
  let p2 :=
    if st.rotationEnabled then
      (({ p1.1 with rotation :=
          ⟨ p1.1.rotation.x + (s p1.2 - 1/2) * (st.rotationRange.x * piQ / 180) * 2
          , p1.1.rotation.y + (s (p1.2+1) - 1/2) * (st.rotationRange.y * piQ / 180) * 2
          , p1.1.rotation.z + (s (p1.2+2) - 1/2) * (st.rotationRange.z * piQ / 180) * 2 ⟩ }
        : CloneObject), p1.2 + 3)
    else p1
  if st.scaleEnabled then
    let scaleFactor := st.rmin + s p2.2 * (st.rmax - st.rmin)
    if st.scaleUniform then
      (({ p2.1 with scale := ⟨p2.1.scale.x * scaleFactor, p2.1.scale.y * scaleFactor,
                              p2.1.scale.z * scaleFactor⟩ } : CloneObject), p2.2 + 1)
    else
      (({ p2.1 with scale :=
          ⟨ p2.1.scale.x * (st.rmin + s (p2.2+1) * (st.rmax - st.rmin))
          , p2.1.scale.y * (st.rmin + s (p2.2+2) * (st.rmax - st.rmin))
          , p2.1.scale.z * (st.rmin + s (p2.2+3) * (st.rmax - st.rmin)) ⟩ }
        : CloneObject), p2.2 + 4)
  else p2

/-- First pass of `createRandomizedScene`: clone and randomize every
annotated object, skipping lights and cameras and objects without an
annotation-store entry. -/
def cloneObjectsPass (piQ : ℚ) (st : RandomizationSettings)
    (annos : List (ℕ × ObjAnno)) (s : ℕ → ℚ) :
    List SceneObject → ℕ → List CloneObject × ℕ
  | [], k => ([], k)
  | o :: os, k =>
    if o.userDataIsLight || o.userDataIsCamera then cloneObjectsPass piQ st annos s os k
    else
      match mapGet annos o.uuid with
      | none => cloneObjectsPass piQ st annos s os k
      | some _ =>
        let p := randomizedClone piQ st s o k
        let rest := cloneObjectsPass piQ st annos s os p.2
        (p.1 :: rest.1, rest.2)

/-- Second pass of `createRandomizedScene`: clone every light, and when
lighting randomization is on (and the object really is a THREE.Light)
scale the intensity and jitter each clamped color channel. -/
def cloneLightsPass (st : RandomizationSettings) (s : ℕ → ℚ) :
    List SceneObject → ℕ → List CloneObject × ℕ
  | [], k => ([], k)
  | o :: os, k =>
    if o.userDataIsLight then
      let c0 : CloneObject :=
        ⟨none, o.position, o.rotation, o.scale,
         o.userDataIsLight, o.isThreeLight, o.intensity, o.color⟩
      if st.lightingEnabled && o.isThreeLight then
        let c1 := { c0 with intensity := o.intensity * (st.imin + s k * (st.imax - st.imin)) }
        if 0 < st.colorVariation then
          let c2 := { c1 with color :=
            ⟨ clamp01 (o.color.r + (s (k+1) - 1/2) * st.colorVariation * 2)
            , clamp01 (o.color.g + (s (k+2) - 1/2) * st.colorVariation * 2)
            , clamp01 (o.color.b + (s (k+3) - 1/2) * st.colorVariation * 2) ⟩ }
          let rest := cloneLightsPass st s os (k+4)
          (c2 :: rest.1, rest.2)
        else
          let rest := cloneLightsPass st s os (k+1)
          (c1 :: rest.1, rest.2)
      else
        let rest := cloneLightsPass st s os k
        (c0 :: rest.1, rest.2)
    else cloneLightsPass st s os k

/-- The ground plane appended by `createRandomizedScene`: a mesh at
`y = -0.01` rotated `-pi/2` about x. -/
def groundPlane (piQ : ℚ) : CloneObject :=
  ⟨none, ⟨0, -(1/100), 0⟩, ⟨-(piQ/2), 0, 0⟩, ⟨1, 1, 1⟩, false, false, 0, ⟨1, 1, 1⟩⟩

/-- `createRandomizedScene` (generators.ts): randomized clones of the
annotated objects, then the (possibly randomized) light clones, then the
ground plane. -/
def createRandomizedScene (piQ : ℚ) (st : RandomizationSettings)
    (annos : List (ℕ × ObjAnno)) (s : ℕ → ℚ)
    (objs : List SceneObject) (k : ℕ) : List CloneObject × ℕ :=
  let p1 := cloneObjectsPass piQ st annos s objs k
  let p2 := cloneLightsPass st s objs p1.2
  (p1.1 ++ p2.1 ++ [groundPlane piQ], p2.2)

/-! ## generators.ts: projection and `generateAnnotationsForImage` -/

def dotQ (a b : Vec3) : ℚ := a.x * b.x + a.y * b.y + a.z * b.z

def subQ (a b : Vec3) : Vec3 := ⟨a.x - b.x, a.y - b.y, a.z - b.z⟩

/-- A perspective camera: world position, orthonormal world basis
(`right`, `up`, `back`; the camera looks along `-back`), and the
projection parameters of `THREE.PerspectiveCamera`.  `tanHalfFov` stands
for the irrational `tan(fov * pi / 360)`. -/
structure CameraQ where
  pos : Vec3
  right : Vec3
  up : Vec3
  back : Vec3
  tanHalfFov : ℚ
  aspect : ℚ
  near : ℚ
  far : ℚ
deriving DecidableEq

/-- View-space coordinates of a world point: `matrixWorldInverse` of a
camera whose world matrix has the given orthonormal basis and position. -/
def viewOf (cam : CameraQ) (p : Vec3) : Vec3 :=
  let d := subQ p cam.pos
  ⟨dotQ cam.right d, dotQ cam.up d, dotQ cam.back d⟩

/-- `Vector3.project(camera)`: apply the view transform, then the
perspective projection of `PerspectiveCamera.updateProjectionMatrix`
(`x' = x / (aspect * tan(fov/2))`, `y' = y / tan(fov/2)`,
`w = -z_view`), then the perspective divide. -/
def ndcOf (cam : CameraQ) (p : Vec3) : Vec3 :=
  let v := viewOf cam p
  let w := -v.z
  ⟨ (v.x / (cam.aspect * cam.tanHalfFov)) / w
  , (v.y / cam.tanHalfFov) / w
  , ((-(cam.far + cam.near) / (cam.far - cam.near)) * v.z
      + (-(2 * cam.far * cam.near) / (cam.far - cam.near))) / w ⟩

/-- An object of the randomized scene as `generateAnnotationsForImage`
sees it: the `userData.originalUuid` tag and the world axis-aligned
bounding box computed by `new THREE.Box3().setFromObject(obj)`. -/
structure ScenePiece where
  originalUuid : Option ℕ
  bmin : Vec3
  bmax : Vec3
deriving DecidableEq

/-- The eight corners of the world AABB, in source order. -/
def cornersOf (p : ScenePiece) : List Vec3 :=
  [ ⟨p.bmin.x, p.bmin.y, p.bmin.z⟩
  , ⟨p.bmin.x, p.bmin.y, p.bmax.z⟩
  , ⟨p.bmin.x, p.bmax.y, p.bmin.z⟩
  , ⟨p.bmin.x, p.bmax.y, p.bmax.z⟩
  , ⟨p.bmax.x, p.bmin.y, p.bmin.z⟩
  , ⟨p.bmax.x, p.bmin.y, p.bmax.z⟩
  , ⟨p.bmax.x, p.bmax.y, p.bmin.z⟩
  , ⟨p.bmax.x, p.bmax.y, p.bmax.z⟩ ]

/-- Screen-space corner: `Math.round((ndc.x*0.5+0.5)*width)` and
`Math.round((1-(ndc.y*0.5+0.5))*height)` (pixel origin top-left). -/
def screenOf (cam : CameraQ) (w h : ℤ) (c : Vec3) : ℤ × ℤ :=
  let n := ndcOf cam c
  (jsRound ((n.x * (1/2) + 1/2) * (w : ℚ)),
   jsRound ((1 - (n.y * (1/2) + 1/2)) * (h : ℚ)))

/-- Math.min over a spread nonempty array (the 8 projected corners). -/
def minList (xs : List ℤ) : ℤ :=
  match xs with
  | [] => 0
  | x :: r => r.foldl min x

/-- Math.max over a spread nonempty array (the 8 projected corners). -/
def maxList (xs : List ℤ) : ℤ :=
  match xs with
  | [] => 0
  | x :: r => r.foldl max x

/-- The viewport-clipped screen box of an object's projected AABB:
`minX = max(0, min xs)`, `maxX = min(width, max xs)` and likewise for y. -/
structure ClippedBox where
  minX : ℤ
  maxX : ℤ
  minY : ℤ
  maxY : ℤ
deriving DecidableEq

def clippedBoxOf (cam : CameraQ) (w h : ℤ) (p : ScenePiece) : ClippedBox :=
  let pts := (cornersOf p).map (screenOf cam w h)
  ⟨ max 0 (minList (pts.map Prod.fst))
  , min w (maxList (pts.map Prod.fst))
  , max 0 (minList (pts.map Prod.snd))
  , min h (maxList (pts.map Prod.snd)) ⟩

/-- A 2D annotation record (`SyntheticDataAnnotation`): `bbox` is
`[minX, minY, maxX-minX, maxY-minY]` in pixels. -/
structure Anno2D where
  objectId : ℕ
  classId : ℕ
  className : String
  bx : ℤ
  bY : ℤ
  bw : ℤ
  bh : ℤ
  area : ℤ
  iscrowd : ℤ
deriving DecidableEq

/-- Body of the `scene.traverse` callback in
`generateAnnotationsForImage` (generators.ts): resolve the original
object's annotation and class, project and clip the AABB, reject boxes
outside the view or under 5 px on either axis, else emit the record. -/
def annoFor (cam : CameraQ) (w h : ℤ) (objAnnos : List (ℕ × ObjAnno))
    (classes : List AnnoClass) (p : ScenePiece) : Option Anno2D :=
  match p.originalUuid with
  | none => none
  | some u =>
    match mapGet objAnnos u with
    | none => none
    | some ann =>
      match classes.find? (fun c => c.id == ann.classId) with
      | none => none
      | some cls =>
        let B := clippedBoxOf cam w h p
        if B.maxX ≤ 0 ∨ B.minX ≥ w ∨ B.maxY ≤ 0 ∨ B.minY ≥ h then none
        else if B.maxX - B.minX < 5 ∨ B.maxY - B.minY < 5 then none
        else some ⟨u, ann.classId, cls.name, B.minX, B.minY,
                   B.maxX - B.minX, B.maxY - B.minY,
                   (B.maxX - B.minX) * (B.maxY - B.minY), 0⟩

/-- `generateAnnotationsForImage` (generators.ts): traverse the scene and
collect the annotation records the callback pushes. -/
def generateAnnotationsForImage (cam : CameraQ) (w h : ℤ)
    (objAnnos : List (ℕ × ObjAnno)) (classes : List AnnoClass)
    (scene : List ScenePiece) : List Anno2D :=
  scene.filterMap (annoFor cam w h objAnnos classes)

/-- An object is entirely behind the camera when every corner of its world
AABB has positive view-space z (the camera looks along negative z). -/
def entirelyBehind (cam : CameraQ) (p : ScenePiece) : Prop :=
  ∀ c ∈ cornersOf p, 0 < (viewOf cam c).z

instance (cam : CameraQ) (p : ScenePiece) : Decidable (entirelyBehind cam p) := by
  unfold entirelyBehind; infer_instance

/-! ## First panel component: `formatAsCOCO`, `formatAsPascalVOC`, `formatAsYOLO` -/

/-- A bbox `[x, y, w, h]` as stored on a generated annotation. -/
structure QBBox where
  x : ℚ
  y : ℚ
  w : ℚ
  h : ℚ
deriving DecidableEq

/-- One annotation as produced by the first panel's `generateAnnotations`
and consumed by the three formatters: `category_id` is the class-registry
id, `category_name` the class name. -/
structure RawAnno where
  category_id : ℕ
  category_name : String
  bbox : QBBox
  area : ℚ
  iscrowd : ℕ
deriving DecidableEq

/-- One element of the `data` array handed to the formatters:
`{imageId, annotations}` (the image payload is irrelevant to them). -/
structure DataItem where
  imageId : String
  annos : List RawAnno
deriving DecidableEq

/-- COCO `categories[]` entry. -/
structure CocoCategory where
  id : ℕ
  name : String
  supercategory : String
deriving DecidableEq

/-- COCO `images[]` entry (`date_captured` omitted: it is `new Date()`). -/
structure CocoImage where
  id : ℕ
  file_name : String
  width : ℕ
  height : ℕ
deriving DecidableEq

/-- COCO `annotations[]` entry (segmentation/keypoints fields are constant
pass-throughs and omitted). -/
structure CocoAnno where
  id : ℕ
  image_id : ℕ
  category_id : ℕ
  bbox : QBBox
  area : ℚ
  iscrowd : ℕ
deriving DecidableEq

/-- The COCO document (`info`/`licenses` are constant metadata and omitted). -/
structure CocoDoc where
  images : List CocoImage
  annos : List CocoAnno
  categories : List CocoCategory
deriving DecidableEq

/-- `annotationClasses.forEach((cls, index) => categories.push({id: index+1, ...}))`. -/
def cocoCategoriesFrom : ℕ → List AnnoClass → List CocoCategory
  | _, [] => []
  | i, c :: rest => ⟨i + 1, c.name, "object"⟩ :: cocoCategoriesFrom (i + 1) rest

/-- `categories.findIndex(c => c.name === anno.category_name) + 1`; a JS
findIndex miss returns -1, making the result 0. -/
def cocoCategoryIdOf (cats : List CocoCategory) (nm : String) : ℕ :=
  match cats.findIdx? (fun c => c.name == nm) with
  | some j => j + 1
  | none => 0

/-- `data.forEach((item, imageIndex) => images.push({id: imageIndex+1, ...}))`. -/
def cocoImagesFrom (rw rh : ℕ) : ℕ → List DataItem → List CocoImage
  | _, [] => []
  | i, item :: rest =>
    ⟨i + 1, item.imageId ++ ".png", rw, rh⟩ :: cocoImagesFrom rw rh (i + 1) rest

/-- `item.annotations.forEach((anno, annoIndex) => annotations.push({id:
imageIndex*1000 + annoIndex + 1, image_id: imageIndex+1, category_id:
name-lookup, ...}))`. -/
def cocoAnnosOfItem (cats : List CocoCategory) (i : ℕ) : ℕ → List RawAnno → List CocoAnno
  | _, [] => []
  | a, anno :: rest =>
    ⟨i * 1000 + a + 1, i + 1, cocoCategoryIdOf cats anno.category_name,
     anno.bbox, anno.area, anno.iscrowd⟩ :: cocoAnnosOfItem cats i (a + 1) rest

/-- The outer `data.forEach` collecting all images' COCO annotations. -/
def cocoAnnosFrom (cats : List CocoCategory) : ℕ → List DataItem → List CocoAnno
  | _, [] => []
  | i, item :: rest =>
    cocoAnnosOfItem cats i 0 item.annos ++ cocoAnnosFrom cats (i + 1) rest

/-- `formatAsCOCO` of the first panel component; `rw`/`rh` are the closed
over `cameraSettings.resolution` width and height. -/
def formatAsCOCO (classes : List AnnoClass) (rw rh : ℕ)
    (data : List DataItem) : CocoDoc :=
  let cats := cocoCategoriesFrom 0 classes
  ⟨cocoImagesFrom rw rh 0 data, cocoAnnosFrom cats 0 data, cats⟩

/-- A Pascal VOC `objects[]` entry. -/
structure VocObj where
  name : String
  pose : String
  truncated : ℕ
  difficult : ℕ
  xmin : ℚ
  ymin : ℚ
  xmax : ℚ
  ymax : ℚ
deriving DecidableEq

/-- A Pascal VOC per-image record. -/
structure VocItem where
  filename : String
  width : ℕ
  height : ℕ
  objects : List VocObj
deriving DecidableEq

/-- The Pascal VOC document (`format: 'PASCAL_VOC'` tag omitted). -/
structure VocDoc where
  data : List VocItem
deriving DecidableEq

/-- One VOC object: `bndbox = {xmin: bbox[0], ymin: bbox[1],
xmax: bbox[0]+bbox[2], ymax: bbox[1]+bbox[3]}`. -/
def vocObjOf (anno : RawAnno) : VocObj :=
  ⟨anno.category_name, "Unspecified", 0, 0,
   anno.bbox.x, anno.bbox.y, anno.bbox.x + anno.bbox.w, anno.bbox.y + anno.bbox.h⟩

/-- `formatAsPascalVOC` of the first panel component. -/
def formatAsPascalVOC (rw rh : ℕ) (data : List DataItem) : VocDoc :=
  ⟨data.map (fun item =>
    ⟨item.imageId ++ ".png", rw, rh, item.annos.map vocObjOf⟩)⟩

/-- Left-pad a digit string with zeros to the given width. -/
def padZeros (str : String) (width : ℕ) : String :=
  if str.length ≥ width then str
  else String.mk (List.replicate (width - str.length) '0') ++ str

/-- JS `Number.prototype.toFixed(6)`: nearest 6-decimal fixed-point string,
ties away from zero. -/
def toFixed6 (q : ℚ) : String :=
  let sign := if q < 0 then "-" else ""
  let n : ℕ := (⌊|q| * 1000000 + 1/2⌋).toNat
  sign ++ Nat.repr (n / 1000000) ++ "." ++ padZeros (Nat.repr (n % 1000000)) 6

/-- The JS object built by `annotationClasses.forEach((cls, index) =>
classMap[cls.name] = index)`: lookup returns the index of the LAST class
with the given name (later assignments overwrite earlier ones). -/
def classMapFrom : ℕ → List AnnoClass → String → Option ℕ
  | _, [], _ => none
  | i, c :: rest, nm =>
    match classMapFrom (i + 1) rest nm with
    | some j => some j
    | none => if c.name == nm then some i else none

/-- One YOLO annotation line: class index, then center-normalized
`cx/W cy/H w/W h/H` at 6 decimals.  A JS lookup miss interpolates as
`"undefined"`. -/
def yoloLineOf (classes : List AnnoClass) (rw rh : ℚ) (anno : RawAnno) : String :=
  let cidx :=
    match classMapFrom 0 classes anno.category_name with
    | some j => Nat.repr j
    | none => "undefined"
  cidx ++ " " ++ toFixed6 ((anno.bbox.x + anno.bbox.w / 2) / rw)
       ++ " " ++ toFixed6 ((anno.bbox.y + anno.bbox.h / 2) / rh)
       ++ " " ++ toFixed6 (anno.bbox.w / rw)
       ++ " " ++ toFixed6 (anno.bbox.h / rh)

/-- A YOLO per-image record. -/
structure YoloItem where
  image : String
  annoLines : List String
deriving DecidableEq

/-- The YOLO document (`format: 'YOLO'` tag omitted). -/
structure YoloDoc where
  classes : List String
  data : List YoloItem
deriving DecidableEq

/-- `formatAsYOLO` of the first panel component; `rw`/`rh` are the closed
over resolution width and height. -/
def formatAsYOLO (classes : List AnnoClass) (rw rh : ℚ)
    (data : List DataItem) : YoloDoc :=
  ⟨classes.map AnnoClass.name,
   data.map (fun item =>
     ⟨item.imageId ++ ".png", item.annos.map (yoloLineOf classes rw rh)⟩)⟩

/-! ## Capture sweep control flow (`handleGenerate`, `generateSyntheticData`) -/

/-- Observable events of a capture sweep: a domain-randomization pass, a
render of pose `j` in sample `i`, a scene restore, and the `finally`-block
flag reset (`setIsGenerating(false)`). -/
inductive SweepEv where
  | randomizeScene : SweepEv
  | render : ℕ → ℕ → SweepEv
  | restoreScene : SweepEv
  | clearFlag : SweepEv
deriving DecidableEq

/-- A captured image record: its id string and the (sample, camera)
indices it was generated from. -/
structure CapturedImg where
  id : String
  sample : ℕ
  cam : ℕ
deriving DecidableEq

/-- The image id template `sample_{i}_camera_{j}`. -/
def imgIdStr (i j : ℕ) : String :=
  "sample_" ++ Nat.repr i ++ "_camera_" ++ Nat.repr j

/-- Inner camera-pose loop of the sweep, starting at pose `j` with `count`
poses left.  `failAt = some (fi, fj)` models the render of pose `fj` in
sample `fi` throwing; the third component reports whether the throw
happened inside this loop. -/
def camLoop (failAt : Option (ℕ × ℕ)) (i : ℕ) :
    ℕ → ℕ → List SweepEv × List CapturedImg × Bool
  | _, 0 => ([], [], false)
  | j, n + 1 =>
    if failAt == some (i, j) then ([SweepEv.render i j], [], true)
    else
      let rest := camLoop failAt i (j + 1) n
      (SweepEv.render i j :: rest.1, ⟨imgIdStr i j, i, j⟩ :: rest.2.1, rest.2.2)

/-- Outer sample loop of the sweep, starting at sample `i` with `count`
samples left.  When `emitRand` is true a randomization pass runs before
the camera poses of each sample. -/
def sampleLoop (emitRand : Bool) (P : ℕ) (failAt : Option (ℕ × ℕ)) :
    ℕ → ℕ → List SweepEv × List CapturedImg × Bool
  | _, 0 => ([], [], false)
  | i, n + 1 =>
    let r : List SweepEv := if emitRand then [SweepEv.randomizeScene] else []
    let inner := camLoop failAt i 0 P
    if inner.2.2 then (r ++ inner.1, inner.2.1, true)
    else
      let rest := sampleLoop emitRand P failAt (i + 1) n
      (r ++ inner.1 ++ rest.1, inner.2.1 ++ rest.2.1, rest.2.2)

/-- The second panel component's `handleGenerate`: the double loop runs in
a `try` whose trailing statements restore the scene; `catch` only logs and
alerts, and `finally` only clears the generating flag — so a throw inside
the loop reaches the end of the function without any restore. -/
def handleGenerate (enabled : Bool) (samples P : ℕ)
    (failAt : Option (ℕ × ℕ)) : List SweepEv × List CapturedImg :=
  let body := sampleLoop enabled P failAt 0 samples
  if body.2.2 then (body.1 ++ [SweepEv.clearFlag], body.2.1)
  else (body.1 ++ [SweepEv.restoreScene, SweepEv.clearFlag], body.2.1)

/-- `generateSyntheticData` of the duplicate panel (`part_001`): the
randomizer (`handleRandomizeScene`) is called unconditionally once per
sample; the scene is restored at the end of the `try` AND again in
`finally` (after the flag reset), so a successful sweep restores twice and
a failed one once. -/
def generateSyntheticData (samples P : ℕ)
    (failAt : Option (ℕ × ℕ)) : List SweepEv × List CapturedImg :=
  let body := sampleLoop true P failAt 0 samples
  if body.2.2 then
    (body.1 ++ [SweepEv.clearFlag, SweepEv.restoreScene], body.2.1)
  else
    (body.1 ++ [SweepEv.restoreScene, SweepEv.clearFlag, SweepEv.restoreScene], body.2.1)

/-- Position block of the duplicate panel's `handleRandomizeScene`
(`part_001`): it runs after a whole-scene restore, without a baseline
lookup, and its y update is `obj.position.y +=
Math.max(0, obj.position.y + jitter)` — the current height is added inside
the clamp as well. -/
def part001PosStep (st : Bool) (rangeX rangeY rangeZ : ℚ) (s : ℕ → ℚ)
    (o : SceneObject) (k : ℕ) : SceneObject × ℕ :=
  if !o.userDataIsLight && st then
    ({ o with position :=
        ⟨ o.position.x + (s k - 1/2) * rangeX * 2
        , o.position.y + max 0 (o.position.y + (s (k+1) - 1/2) * rangeY * 2)
        , o.position.z + (s (k+2) - 1/2) * rangeZ * 2 ⟩ }, k + 3)
  else (o, k)

/-! ## Concrete fixtures used by witnesses and counterexamples -/

/-- A one-class registry. -/
def boxClasses : List AnnoClass := [⟨1, "box"⟩]

/-- Annotation store entry for the object with uuid 7. -/
def boxAnnoMap : List (ℕ × ObjAnno) := [(7, ⟨1⟩)]

/-- A camera at `(0,0,5)` looking at the origin (identity world basis),
fov 90 degrees (`tanHalfFov = 1`), square aspect. -/
def zAxisCam : CameraQ := ⟨⟨0, 0, 5⟩, ⟨1, 0, 0⟩, ⟨0, 1, 0⟩, ⟨0, 0, 1⟩, 1, 1, 1/10, 1000⟩

/-- A unit-radius box centered 5 units behind the camera above. -/
def behindPiece : ScenePiece := ⟨some 7, ⟨-1, -1, 8⟩, ⟨1, 1, 12⟩⟩

/-- A unit-radius box at the origin, in front of the camera above. -/
def frontPiece : ScenePiece := ⟨some 7, ⟨-1, -1, -1⟩, ⟨1, 1, 1⟩⟩

/-- Randomization settings with only position randomization active
(ranges `x = 1, y = 4, z = 1`). -/
def posOnlySettings : RandomizationSettings :=
  ⟨true, true, ⟨1, 4, 1⟩, false, ⟨0, 0, 0⟩, false, true, 1, 1, false, 1, 1, 0⟩

/-- A mesh with uuid 1 resting at height `y = 5`. -/
def elevObj : SceneObject :=
  ⟨1, ⟨0, 5, 0⟩, ⟨0, 0, 0⟩, ⟨1, 1, 1⟩, false, false, false, false, 0, ⟨1, 1, 1⟩⟩

/-- Annotation store entry for `elevObj`. -/
def elevAnnoMap : List (ℕ × ObjAnno) := [(1, ⟨1⟩)]

/-- A `Math.random()` history that always returns 0. -/
def zeroStream : ℕ → ℚ := fun _ => 0

/-- A `Math.random()` history returning 0 for the first three draws and
one half afterwards. -/
def stepStream : ℕ → ℚ := fun n => if n < 3 then 0 else 1/2

/-- A stored annotation with bbox `[10, 20, 30, 40]`. -/
def rawA : RawAnno := ⟨1, "box", ⟨10, 20, 30, 40⟩, 1200, 0⟩

/-- The three-class registry of the category-index test. -/
def carTreeSign : List AnnoClass := [⟨1, "car"⟩, ⟨2, "tree"⟩, ⟨3, "sign"⟩]

/-- Export data whose first image carries 1001 annotations and whose
second carries one. -/
def collideData : List DataItem :=
  [⟨"i0", List.replicate 1001 rawA⟩, ⟨"i1", [rawA]⟩]

/-- A single-image, single-annotation export input. -/
def singleData : List DataItem := [⟨"img0", [rawA]⟩]

/-- A box far left of the camera's frustum: every projected corner has a
negative pixel x, so the clipped box satisfies `maxX <= 0`. -/
def leftPiece : ScenePiece := ⟨some 7, ⟨-100, -1, -1⟩, ⟨-90, 1, 1⟩⟩

/-- The annotation `generateAnnotationsForImage` emits for `frontPiece`
under `zAxisCam` on a 100 by 100 viewport. -/
def frontAnno : Anno2D := ⟨7, 1, "box", 38, 38, 25, 25, 625, 0⟩

/-! ## Claim C4 -/

/-- Claim C4: the spec requires the baseline restore to run exactly once on
every exit path of a capture sweep.  Evaluating the embedded control flow:
on a 1-sample, 1-pose sweep whose only render throws, `handleGenerate`
performs zero restores (its restore runs at the end of `try` only, and its
`finally` merely clears the flag), while a successful run restores once;
the duplicate panel's `generateSyntheticData` restores twice on success
(end of `try` plus `finally`) and once on failure. -/
theorem c4_restore_exit_paths :
    (handleGenerate true 1 1 (some (0, 0))).1.count SweepEv.restoreScene = 0
    ∧ (handleGenerate true 1 1 none).1.count SweepEv.restoreScene = 1
    ∧ (generateSyntheticData 1 1 none).1.count SweepEv.restoreScene = 2
    ∧ (generateSyntheticData 1 1 (some (0, 0))).1.count SweepEv.restoreScene = 1 := by
  decide

section RatEval

attribute [local semireducible] Rat.add Rat.mul Rat.sub Rat.inv Rat.ofScientific

/-! ## Claim C3 -/

/-- Claim C3 (counterexample): an object whose AABB lies entirely behind
the camera is NOT rejected — the perspective divide flips the coordinates
of behind-camera points and the resulting clipped box can land inside the
viewport, so an annotation is emitted.  Every corner of `behindPiece` has
positive view-space z under `zAxisCam`, yet `annoFor` produces an
annotation, contradicting the claim that such objects always yield null. -/
theorem c3_behind_camera_counterexample :
    entirelyBehind zAxisCam behindPiece
    ∧ annoFor zAxisCam 100 100 boxAnnoMap boxClasses behindPiece ≠ none := by
  refine ⟨by decide, by decide⟩

/-- Claim C3 (amended): `generateAnnotationsForImage` emits no annotation
whenever the clipped box lies entirely outside the viewport
(`maxX <= 0`, `minX >= width`, `maxY <= 0` or `minY >= height`), has zero
or negative extent on either axis, or has either extent below the 5 px
minimum; objects entirely behind the camera are not specially rejected. -/
theorem c3_degenerate_rejection (cam : CameraQ) (w h : ℤ)
    (objAnnos : List (ℕ × ObjAnno)) (classes : List AnnoClass) (p : ScenePiece)
    (hc : (clippedBoxOf cam w h p).maxX ≤ 0 ∨ (clippedBoxOf cam w h p).minX ≥ w
        ∨ (clippedBoxOf cam w h p).maxY ≤ 0 ∨ (clippedBoxOf cam w h p).minY ≥ h
        ∨ (clippedBoxOf cam w h p).maxX - (clippedBoxOf cam w h p).minX ≤ 0
        ∨ (clippedBoxOf cam w h p).maxY - (clippedBoxOf cam w h p).minY ≤ 0
        ∨ (clippedBoxOf cam w h p).maxX - (clippedBoxOf cam w h p).minX < 5
        ∨ (clippedBoxOf cam w h p).maxY - (clippedBoxOf cam w h p).minY < 5) :
    annoFor cam w h objAnnos classes p = none := by
  unfold annoFor
  cases hu : p.originalUuid with
  | none => rfl
  | some u =>
    dsimp only
    cases han : mapGet objAnnos u with
    | none => rfl
    | some ann =>
      dsimp only
      cases hcl : classes.find? (fun c => c.id == ann.classId) with
      | none => rfl
      | some cls =>
        dsimp only
        split
        · rfl
        · rename_i hout
          split
          · rfl
          · rename_i hsmall
            exact absurd (show (clippedBoxOf cam w h p).maxX ≤ 0 ∨
              (clippedBoxOf cam w h p).minX ≥ w ∨ (clippedBoxOf cam w h p).maxY ≤ 0 ∨
              (clippedBoxOf cam w h p).minY ≥ h by
                rcases hc with hc | hc | hc | hc | hc | hc | hc | hc <;> omega) hout

/-- Claim C3 (witness): `leftPiece` projects entirely left of the viewport
(`maxX <= 0`) and `annoFor` indeed rejects it. -/
theorem c3_degenerate_rejection_witness :
    ((clippedBoxOf zAxisCam 100 100 leftPiece).maxX ≤ 0)
    ∧ annoFor zAxisCam 100 100 boxAnnoMap boxClasses leftPiece = none :=
  ⟨by decide,
   c3_degenerate_rejection zAxisCam 100 100 boxAnnoMap boxClasses leftPiece
     (Or.inl (by decide))⟩

/-! ## Claim C10 -/

/-- Claim C10: every annotation emitted by `generateAnnotationsForImage`
has its bbox inside the viewport with nonnegative extents, `area` exactly
`w * h`, `iscrowd = 0`, and a class id and name that name an entry of the
supplied class registry; objects whose annotation or class cannot be
resolved emit nothing (they reach no `some` branch of `annoFor`). -/
theorem c10_emitted_invariants (cam : CameraQ) (w h : ℤ)
    (objAnnos : List (ℕ × ObjAnno)) (classes : List AnnoClass)
    (scene : List ScenePiece) (a : Anno2D)
    (ha : a ∈ generateAnnotationsForImage cam w h objAnnos classes scene) :
    0 ≤ a.bx ∧ a.bx + a.bw ≤ w ∧ 0 ≤ a.bY ∧ a.bY + a.bh ≤ h
    ∧ 0 ≤ a.bw ∧ 0 ≤ a.bh ∧ a.area = a.bw * a.bh ∧ a.iscrowd = 0
    ∧ ∃ c ∈ classes, c.id = a.classId ∧ c.name = a.className := by
  obtain ⟨p, hp, heq⟩ := List.mem_filterMap.mp ha
  unfold annoFor at heq
  cases hu : p.originalUuid with
  | none => rw [hu] at heq; cases heq
  | some u =>
    rw [hu] at heq
    dsimp only at heq
    cases han : mapGet objAnnos u with
    | none => rw [han] at heq; cases heq
    | some ann =>
      rw [han] at heq
      dsimp only at heq
      cases hcl : classes.find? (fun c => c.id == ann.classId) with
      | none => rw [hcl] at heq; cases heq
      | some cls =>
        rw [hcl] at heq
        dsimp only at heq
        have hmin0 : 0 ≤ (clippedBoxOf cam w h p).minX := le_max_left 0 _
        have hmax0 : (clippedBoxOf cam w h p).maxX ≤ w := min_le_left w _
        have hmin0y : 0 ≤ (clippedBoxOf cam w h p).minY := le_max_left 0 _
        have hmax0y : (clippedBoxOf cam w h p).maxY ≤ h := min_le_left h _
        split at heq
        · cases heq
        · split at heq
          · cases heq
          · rename_i hout hsmall
            rw [Option.some_inj] at heq
            subst heq
            refine ⟨by simpa using hmin0, by dsimp only; omega,
                    by simpa using hmin0y, by dsimp only; omega,
                    by dsimp only; omega, by dsimp only; omega, rfl, rfl, ?_⟩
            refine ⟨cls, List.mem_of_find?_eq_some hcl, ?_, rfl⟩
            have := List.find?_some hcl
            simpa using this

/-- Claim C10 (witness): `frontPiece` yields the annotation `frontAnno`,
on which every invariant holds concretely. -/
theorem c10_emitted_invariants_witness :
    frontAnno ∈ generateAnnotationsForImage zAxisCam 100 100 boxAnnoMap boxClasses [frontPiece]
    ∧ (0 ≤ frontAnno.bx ∧ frontAnno.bx + frontAnno.bw ≤ 100 ∧ 0 ≤ frontAnno.bY
        ∧ frontAnno.bY + frontAnno.bh ≤ 100 ∧ 0 ≤ frontAnno.bw ∧ 0 ≤ frontAnno.bh
        ∧ frontAnno.area = frontAnno.bw * frontAnno.bh ∧ frontAnno.iscrowd = 0
        ∧ ∃ c ∈ boxClasses, c.id = frontAnno.classId ∧ c.name = frontAnno.className) :=
  ⟨by decide,
   c10_emitted_invariants zAxisCam 100 100 boxAnnoMap boxClasses [frontPiece] frontAnno
     (by decide)⟩

/-! ## Claim C2 -/

/-- Helper: adding a clamped-to-zero jitter is the same as clamping the
sum against the base value. -/
theorem add_max_zero (a b : ℚ) : a + max 0 b = max a (a + b) := by
  rw [← max_add_add_left a 0 b, add_zero]

/-- Claim C2 (counterexample): `createRandomizedScene` (generators.ts)
clamps the randomized height to `max(0, baseline.y + jitter)`, not
`max(baseline.y, baseline.y + jitter)`.  With baseline height 5, y-range 4
and a `Math.random()` draw of 0 (jitter -4), the clone lands at height 1 —
different from the claimed value 5 and strictly below the baseline. -/
theorem c2_ground_clamp_counterexample :
    (let c := (createRandomizedScene 3 posOnlySettings elevAnnoMap zeroStream [elevObj] 0).1.getD 0
        ⟨none, ⟨0,0,0⟩, ⟨0,0,0⟩, ⟨0,0,0⟩, false, false, 0, ⟨0,0,0⟩⟩
     c.position.y = 1
     ∧ elevObj.position.y = 5
     ∧ c.position.y < elevObj.position.y
     ∧ c.position.y ≠ max elevObj.position.y
          (elevObj.position.y + (zeroStream 1 - 1/2) * 4 * 2)) := by
  refine ⟨by decide, by decide, by decide, by decide⟩

/-- Claim C2 (amended): the first panel's `handleRandomizeScene` position
block does satisfy the claimed formula `y = max(baseline.y, baseline.y +
jitter)` and never drops below the baseline; `createRandomizedScene`
(generators.ts) instead computes `y = max(0, baseline.y + jitter)`, which
can fall strictly below a positive baseline; the duplicate panel
(`part_001`) computes `y = baseline.y + max(0, baseline.y + jitter)`,
which never drops below the baseline but is not the claimed formula. -/
theorem c2_vertical_axis (piQ : ℚ) (stt : RandomizationSettings) (stb : Bool)
    (rX rY rZ : ℚ) (tr : List (ℕ × TransformEntry)) (s : ℕ → ℚ)
    (o : SceneObject) (k : ℕ) (t : TransformEntry)
    (hlight : o.userDataIsLight = false) (hst : stb = true)
    (htr : mapGet tr o.uuid = some t) (hpos : stt.positionEnabled = true) :
    ((posStep stb rX rY rZ tr s o k).1).position.y
        = max t.position.y (t.position.y + (s (k+1) - 1/2) * rY * 2)
    ∧ t.position.y ≤ ((posStep stb rX rY rZ tr s o k).1).position.y
    ∧ ((randomizedClone piQ stt s o k).1).position.y
        = max 0 (o.position.y + (s (k+1) - 1/2) * stt.positionRange.y * 2)
    ∧ ((part001PosStep stb rX rY rZ s o k).1).position.y
        = o.position.y + max 0 (o.position.y + (s (k+1) - 1/2) * rY * 2)
    ∧ o.position.y ≤ ((part001PosStep stb rX rY rZ s o k).1).position.y := by
  subst hst
  have hy : ((posStep true rX rY rZ tr s o k).1).position.y
      = t.position.y + max 0 ((s (k+1) - 1/2) * rY * 2) := by
    simp only [posStep, hlight, Bool.not_false, Bool.and_self, if_true, htr]
  refine ⟨?_, ?_, ?_, ?_, ?_⟩
  · rw [hy, add_max_zero]
  · rw [hy]
    exact le_add_of_nonneg_right (le_max_left 0 _)
  · unfold randomizedClone
    simp only [hpos, if_true]
    split <;> split <;> (try split) <;> rfl
  · simp only [part001PosStep, hlight, Bool.not_false, Bool.and_self, if_true]
  · simp only [part001PosStep, hlight, Bool.not_false, Bool.and_self, if_true]
    exact le_add_of_nonneg_right (le_max_left 0 _)

/-- Claim C2 (witness): the amended statement evaluated on `elevObj` with
its own captured baseline. -/
theorem c2_vertical_axis_witness :
    ((posStep true 1 4 1 (captureTransforms [elevObj]) zeroStream elevObj 0).1).position.y
      = max (transformEntryOf elevObj).position.y
          ((transformEntryOf elevObj).position.y + (zeroStream 1 - 1/2) * 4 * 2) :=
  (c2_vertical_axis 3 posOnlySettings true 1 4 1 (captureTransforms [elevObj]) zeroStream
    elevObj 0 (transformEntryOf elevObj) rfl rfl (by decide) rfl).1

/-! ## Claim C8 -/

/-- Helper: the inner camera loop without failures renders every pose once
and captures one image per pose, in pose order. -/
theorem camLoop_none_eq (i n : ℕ) : ∀ j, camLoop none i j n =
    ((List.range' j n).map (SweepEv.render i),
     (List.range' j n).map (fun jj => (⟨imgIdStr i jj, i, jj⟩ : CapturedImg)), false) := by
  induction n with
  | zero => intro j; rfl
  | succ n ih =>
    intro j
    rw [show List.range' j (n+1) = j :: List.range' (j+1) n from List.range'_succ j n 1]
    simp [camLoop, ih (j+1)]

/-- Helper: the outer sample loop without failures is the concatenation of
per-sample blocks, each an optional randomization pass followed by the
renders of all poses. -/
theorem sampleLoop_none_eq (emitRand : Bool) (P n : ℕ) : ∀ i,
    sampleLoop emitRand P none i n =
      (((List.range' i n).map (fun ii =>
          (if emitRand then [SweepEv.randomizeScene] else [])
            ++ (List.range' 0 P).map (SweepEv.render ii))).flatten,
       ((List.range' i n).map (fun ii =>
          (List.range' 0 P).map (fun j => (⟨imgIdStr ii j, ii, j⟩ : CapturedImg)))).flatten,
       false) := by
  induction n with
  | zero => intro i; rfl
  | succ n ih =>
    intro i
    rw [show List.range' i (n+1) = i :: List.range' (i+1) n from List.range'_succ i n 1]
    simp [sampleLoop, camLoop_none_eq, ih (i+1), List.append_assoc]

/-- Claim C8: in a sweep in which every render and capture succeeds, the
randomizer block runs exactly once per sample, before that sample's camera
poses; the sweep produces exactly `samples * P` captured images with ids
`sample_i_camera_j` in sample-major order.  Both the second panel's
`handleGenerate` (with randomization enabled) and the duplicate panel's
`generateSyntheticData` (whose randomizer call is unconditional) satisfy
this. -/
theorem c8_sweep_structure (samples P : ℕ) :
    ((handleGenerate true samples P none).2).length = samples * P
    ∧ (handleGenerate true samples P none).2
        = ((List.range samples).map (fun i =>
            (List.range P).map (fun j => (⟨imgIdStr i j, i, j⟩ : CapturedImg)))).flatten
    ∧ (handleGenerate true samples P none).1.count SweepEv.randomizeScene = samples
    ∧ (handleGenerate true samples P none).1
        = ((List.range samples).map (fun i =>
            SweepEv.randomizeScene :: (List.range P).map (SweepEv.render i))).flatten
          ++ [SweepEv.restoreScene, SweepEv.clearFlag]
    ∧ (generateSyntheticData samples P none).2
        = ((List.range samples).map (fun i =>
            (List.range P).map (fun j => (⟨imgIdStr i j, i, j⟩ : CapturedImg)))).flatten
    ∧ (generateSyntheticData samples P none).1.count SweepEv.randomizeScene = samples := by
  have himg : (handleGenerate true samples P none).2
      = ((List.range samples).map (fun i =>
          (List.range P).map (fun j => (⟨imgIdStr i j, i, j⟩ : CapturedImg)))).flatten := by
    simp [handleGenerate, sampleLoop_none_eq, List.range_eq_range']
  have hev : (handleGenerate true samples P none).1
      = ((List.range samples).map (fun i =>
          SweepEv.randomizeScene :: (List.range P).map (SweepEv.render i))).flatten
        ++ [SweepEv.restoreScene, SweepEv.clearFlag] := by
    simp [handleGenerate, sampleLoop_none_eq, List.range_eq_range']
  have hcount : ∀ l : List (List SweepEv),
      (∀ b ∈ l, b.count SweepEv.randomizeScene = 1) →
      l.flatten.count SweepEv.randomizeScene = l.length := by
    intro l hb
    rw [List.count_flatten]
    rw [List.map_congr_left hb]
    simp [List.map_const', List.sum_replicate, smul_eq_mul]
  have hone : ∀ i, (SweepEv.randomizeScene :: (List.range P).map (SweepEv.render i)).count
      SweepEv.randomizeScene = 1 := by
    intro i
    rw [List.count_cons_self]
    have : ((List.range P).map (SweepEv.render i)).count SweepEv.randomizeScene = 0 := by
      rw [List.count_eq_zero]
      intro hmem
      obtain ⟨j, _, hj⟩ := List.mem_map.mp hmem
      cases hj
    omega
  refine ⟨?_, himg, ?_, hev, ?_, ?_⟩
  · rw [himg, List.length_flatten, List.map_map]
    have : (List.map (List.length ∘ fun i => List.map
        (fun j => (⟨imgIdStr i j, i, j⟩ : CapturedImg)) (List.range P))
        (List.range samples)) = List.replicate samples P := by
      rw [show (List.length ∘ fun i => List.map
          (fun j => (⟨imgIdStr i j, i, j⟩ : CapturedImg)) (List.range P))
          = fun _ => P from by funext i; simp]
      rw [List.map_const', List.length_range]
    rw [this, List.sum_replicate, smul_eq_mul]
  · rw [hev, List.count_append]
    have h2 : ([SweepEv.restoreScene, SweepEv.clearFlag]).count SweepEv.randomizeScene = 0 := by
      decide
    rw [h2]
    have := hcount (((List.range samples).map (fun i =>
        SweepEv.randomizeScene :: (List.range P).map (SweepEv.render i))))
      (by intro b hb
          obtain ⟨i, _, hi⟩ := List.mem_map.mp hb
          rw [← hi]
          exact hone i)
    rw [this]
    simp
  · simp [generateSyntheticData, sampleLoop_none_eq, List.range_eq_range']
  · have hev2 : (generateSyntheticData samples P none).1
        = ((List.range samples).map (fun i =>
            SweepEv.randomizeScene :: (List.range P).map (SweepEv.render i))).flatten
          ++ [SweepEv.restoreScene, SweepEv.clearFlag, SweepEv.restoreScene] := by
      simp [generateSyntheticData, sampleLoop_none_eq, List.range_eq_range']
    rw [hev2, List.count_append]
    have h2 : ([SweepEv.restoreScene, SweepEv.clearFlag,
        SweepEv.restoreScene]).count SweepEv.randomizeScene = 0 := by decide
    rw [h2]
    have := hcount (((List.range samples).map (fun i =>
        SweepEv.randomizeScene :: (List.range P).map (SweepEv.render i))))
      (by intro b hb
          obtain ⟨i, _, hi⟩ := List.mem_map.mp hb
          rw [← hi]
          exact hone i)
    rw [this]
    simp

/-! ## Claim C7 -/

/-- Helper: `getD` through `map` at an in-bounds index. -/
theorem getD_map_of_lt {A B : Type} (f : A → B) (l : List A) (i : ℕ)
    (h : i < l.length) (d : B) :
    (l.map f).getD i d = f (l.get ⟨i, h⟩) := by
  rw [List.getD_eq_getElem?_getD, List.getElem?_map, List.getElem?_eq_getElem h]
  simp [List.get_eq_getElem]

/-- Claim C7: for every stored annotation with bbox `[x, y, w, h]`, the
Pascal VOC export emits `bndbox {xmin: x, ymin: y, xmax: x+w, ymax: y+h}`
(with pose "Unspecified", truncated 0, difficult 0) and the YOLO export
emits the line `{classIndex} {cx/W} {cy/H} {w/W} {h/H}` at 6-decimal fixed
point; concretely, bbox `[10,20,30,40]` yields VOC bndbox
`{10, 20, 40, 60}` and, on a 100 by 100 image with a single class, the
YOLO line `"0 0.250000 0.400000 0.300000 0.400000"`. -/
theorem c7_voc_yolo_fields (rw rh : ℕ) (Wq Hq : ℚ) (classes : List AnnoClass)
    (data : List DataItem) (i m : ℕ) (hi : i < data.length)
    (hm : m < (data.get ⟨i, hi⟩).annos.length) :
    (((formatAsPascalVOC rw rh data).data.getD i ⟨"", 0, 0, []⟩).objects.getD m
        ⟨"", "", 0, 0, 0, 0, 0, 0⟩ =
      (let anno := (data.get ⟨i, hi⟩).annos.get ⟨m, hm⟩
       ⟨anno.category_name, "Unspecified", 0, 0, anno.bbox.x, anno.bbox.y,
        anno.bbox.x + anno.bbox.w, anno.bbox.y + anno.bbox.h⟩))
    ∧ (((formatAsYOLO classes Wq Hq data).data.getD i ⟨"", []⟩).annoLines.getD m "" =
      (let anno := (data.get ⟨i, hi⟩).annos.get ⟨m, hm⟩
       (match classMapFrom 0 classes anno.category_name with
        | some j => Nat.repr j
        | none => "undefined")
       ++ " " ++ toFixed6 ((anno.bbox.x + anno.bbox.w / 2) / Wq)
       ++ " " ++ toFixed6 ((anno.bbox.y + anno.bbox.h / 2) / Hq)
       ++ " " ++ toFixed6 (anno.bbox.w / Wq)
       ++ " " ++ toFixed6 (anno.bbox.h / Hq)))
    ∧ ((formatAsPascalVOC 100 100 singleData).data.getD 0 ⟨"", 0, 0, []⟩).objects.getD 0
        ⟨"", "", 0, 0, 0, 0, 0, 0⟩ = ⟨"box", "Unspecified", 0, 0, 10, 20, 40, 60⟩
    ∧ ((formatAsYOLO boxClasses 100 100 singleData).data.getD 0 ⟨"", []⟩).annoLines.getD 0 ""
        = "0 0.250000 0.400000 0.300000 0.400000" := by
  refine ⟨?_, ?_, by decide, by decide⟩
  · show ((data.map (fun item =>
        (⟨item.imageId ++ ".png", rw, rh, item.annos.map vocObjOf⟩ : VocItem))).getD i
          ⟨"", 0, 0, []⟩).objects.getD m ⟨"", "", 0, 0, 0, 0, 0, 0⟩ = _
    rw [getD_map_of_lt _ data i hi]
    dsimp only
    rw [getD_map_of_lt vocObjOf _ m hm]
    rfl
  · show ((data.map (fun item =>
        (⟨item.imageId ++ ".png", item.annos.map (yoloLineOf classes Wq Hq)⟩ : YoloItem))).getD i
          ⟨"", []⟩).annoLines.getD m "" = _
    rw [getD_map_of_lt _ data i hi]
    dsimp only
    rw [getD_map_of_lt (yoloLineOf classes Wq Hq) _ m hm]
    rfl

/-- Claim C7 (witness): the structural statement applied to the concrete
single-annotation export. -/
theorem c7_voc_yolo_fields_witness :
    ((formatAsYOLO boxClasses 100 100 singleData).data.getD 0 ⟨"", []⟩).annoLines.getD 0 ""
      = "0 0.250000 0.400000 0.300000 0.400000" :=
  (c7_voc_yolo_fields 100 100 100 100 boxClasses singleData 0 0 (by decide)
    (by decide)).2.2.2

/-! ## Claim C5 -/

/-- Helper: the COCO categories array assigns `startId + position + 1` as
id and carries the class names in order. -/
theorem cocoCategoriesFrom_getD (classes : List AnnoClass) :
    ∀ (i k : ℕ), (h : k < classes.length) →
    (cocoCategoriesFrom i classes).getD k ⟨0, "", ""⟩ =
      ⟨i + k + 1, (classes.get ⟨k, h⟩).name, "object"⟩ := by
  induction classes with
  | nil => intro i k h; cases h
  | cons c rest ih =>
    intro i k h
    cases k with
    | zero => rfl
    | succ k' =>
      have hk' : k' < rest.length := Nat.lt_of_succ_lt_succ h
      have := ih (i + 1) k' hk'
      simp only [cocoCategoriesFrom, List.getD_cons_succ, this, List.get_cons_succ]
      congr 1
      omega

/-- Helper: a JS-object lookup misses when the name is absent. -/
theorem classMapFrom_eq_none (classes : List AnnoClass) (nm : String)
    (h : nm ∉ classes.map AnnoClass.name) : ∀ i, classMapFrom i classes nm = none := by
  induction classes with
  | nil => intro i; rfl
  | cons c rest ih =>
    intro i
    have h1 : c.name ≠ nm := by
      intro he
      exact h (by rw [← he]; exact List.mem_cons_self _ _)
    have h2 : nm ∉ rest.map AnnoClass.name := fun hm => h (List.mem_cons_of_mem _ hm)
    simp [classMapFrom, ih h2, beq_eq_false_iff_ne.mpr h1]

/-- Helper: with distinct class names, the YOLO class map resolves the
k-th class name to index `start + k`. -/
theorem classMapFrom_nodup (classes : List AnnoClass)
    (hnd : (classes.map AnnoClass.name).Nodup) :
    ∀ (i k : ℕ), (h : k < classes.length) →
    classMapFrom i classes ((classes.get ⟨k, h⟩).name) = some (i + k) := by
  induction classes with
  | nil => intro i k h; cases h
  | cons c rest ih =>
    intro i k h
    cases k with
    | zero =>
      have hnotin : c.name ∉ rest.map AnnoClass.name := (List.nodup_cons.mp hnd).1
      simp [classMapFrom, classMapFrom_eq_none rest c.name hnotin (i + 1)]
    | succ k' =>
      have hk' : k' < rest.length := Nat.lt_of_succ_lt_succ h
      have := ih (List.nodup_cons.mp hnd).2 (i + 1) k' hk'
      simp only [classMapFrom, List.get_cons_succ, this]
      congr 1
      omega

/-- Helper: with distinct class names, `findIndex` over the generated COCO
categories locates the k-th class name at position `start + k`. -/
theorem cocoCategories_findIdx (classes : List AnnoClass)
    (hnd : (classes.map AnnoClass.name).Nodup) :
    ∀ (i j k : ℕ), (h : k < classes.length) →
    (cocoCategoriesFrom i classes).findIdx?
        (fun cc => cc.name == (classes.get ⟨k, h⟩).name) j = some (j + k) := by
  induction classes with
  | nil => intro i j k h; cases h
  | cons c rest ih =>
    intro i j k h
    cases k with
    | zero => simp [cocoCategoriesFrom]
    | succ k' =>
      have hk' : k' < rest.length := Nat.lt_of_succ_lt_succ h
      have hne : c.name ≠ ((c :: rest).get ⟨k' + 1, h⟩).name := by
        intro he
        have hmem : ((c :: rest).get ⟨k' + 1, h⟩).name ∈ rest.map AnnoClass.name := by
          rw [List.get_cons_succ]
          exact List.mem_map_of_mem _ (rest.get_mem _ _)
        rw [← he] at hmem
        exact (List.nodup_cons.mp hnd).1 hmem
      have := ih (List.nodup_cons.mp hnd).2 (i + 1) (j + 1) k' hk'
      simp only [cocoCategoriesFrom, List.findIdx?_cons, List.get_cons_succ] at this ⊢
      rw [if_neg (by simpa using hne)]
      rw [this]
      congr 1
      omega

/-- Helper: each COCO annotation's category id is a fresh name lookup of
some stored annotation in the same image. -/
theorem cocoAnnosOfItem_category (cats : List CocoCategory) (annos : List RawAnno) :
    ∀ (i a : ℕ) (ca : CocoAnno), ca ∈ cocoAnnosOfItem cats i a annos →
      ∃ an ∈ annos, ca.category_id = cocoCategoryIdOf cats an.category_name := by
  induction annos with
  | nil => intro i a ca h; cases h
  | cons an rest ih =>
    intro i a ca h
    rcases List.mem_cons.mp h with rfl | h'
    · exact ⟨an, List.mem_cons_self _ _, rfl⟩
    · obtain ⟨an', hm, he⟩ := ih i (a + 1) ca h'
      exact ⟨an', List.mem_cons_of_mem _ hm, he⟩

/-- Helper: lift the per-image category fact to the whole document. -/
theorem cocoAnnosFrom_category (cats : List CocoCategory) (data : List DataItem) :
    ∀ (i : ℕ) (ca : CocoAnno), ca ∈ cocoAnnosFrom cats i data →
      ∃ item ∈ data, ∃ an ∈ item.annos,
        ca.category_id = cocoCategoryIdOf cats an.category_name := by
  induction data with
  | nil => intro i ca h; cases h
  | cons item rest ih =>
    intro i ca h
    rcases List.mem_append.mp h with h' | h'
    · obtain ⟨an, hm, he⟩ := cocoAnnosOfItem_category cats item.annos i 0 ca h'
      exact ⟨item, List.mem_cons_self _ _, an, hm, he⟩
    · obtain ⟨item', hm, rest'⟩ := ih (i + 1) ca h'
      exact ⟨item', List.mem_cons_of_mem _ hm, rest'⟩

/-- Claim C5: for every class list with distinct names, COCO assigns the
k-th class the 1-based category id `k + 1` (so `["car","tree","sign"]` get
1, 2, 3), YOLO assigns the k-th emitted class name the 0-based index `k`,
and each emitted COCO annotation's `category_id` comes from looking up a
stored annotation's class name in the categories array, not from the
stored class-registry id. -/
theorem c5_category_index (classes : List AnnoClass) (rw rh : ℕ) (Wq Hq : ℚ)
    (data : List DataItem) (k : ℕ)
    (hnd : (classes.map AnnoClass.name).Nodup) (hk : k < classes.length) :
    ((formatAsCOCO classes rw rh data).categories.getD k ⟨0, "", ""⟩).id = k + 1
    ∧ ((formatAsCOCO classes rw rh data).categories.getD k ⟨0, "", ""⟩).name
        = (classes.get ⟨k, hk⟩).name
    ∧ cocoCategoryIdOf (cocoCategoriesFrom 0 classes) ((classes.get ⟨k, hk⟩).name) = k + 1
    ∧ (formatAsYOLO classes Wq Hq data).classes.getD k "" = (classes.get ⟨k, hk⟩).name
    ∧ classMapFrom 0 classes ((classes.get ⟨k, hk⟩).name) = some k
    ∧ ∀ ca ∈ (formatAsCOCO classes rw rh data).annos,
        ∃ item ∈ data, ∃ an ∈ item.annos,
          ca.category_id = cocoCategoryIdOf (cocoCategoriesFrom 0 classes) an.category_name := by
  refine ⟨?_, ?_, ?_, ?_, ?_, ?_⟩
  · show ((cocoCategoriesFrom 0 classes).getD k ⟨0, "", ""⟩).id = k + 1
    rw [cocoCategoriesFrom_getD classes 0 k hk]
    simp
  · show ((cocoCategoriesFrom 0 classes).getD k ⟨0, "", ""⟩).name = _
    rw [cocoCategoriesFrom_getD classes 0 k hk]
  · unfold cocoCategoryIdOf
    rw [cocoCategories_findIdx classes hnd 0 0 k hk]
    simp
  · show (classes.map AnnoClass.name).getD k "" = _
    rw [getD_map_of_lt AnnoClass.name classes k hk]
  · rw [classMapFrom_nodup classes hnd 0 k hk]
    simp
  · intro ca hca
    exact cocoAnnosFrom_category (cocoCategoriesFrom 0 classes) data 0 ca hca

/-- Claim C5 (witness): with classes `["car","tree","sign"]`, the class
"tree" receives COCO category id 2 and YOLO index 1. -/
theorem c5_category_index_witness :
    cocoCategoryIdOf (cocoCategoriesFrom 0 carTreeSign)
        ((carTreeSign.get ⟨1, by decide⟩).name) = 1 + 1
    ∧ classMapFrom 0 carTreeSign ((carTreeSign.get ⟨1, by decide⟩).name) = some 1 :=
  ⟨(c5_category_index carTreeSign 100 100 100 100 singleData 1 (by decide) (by decide)).2.2.1,
   (c5_category_index carTreeSign 100 100 100 100 singleData 1 (by decide) (by decide)).2.2.2.2.1⟩

/-! ## Claim C6 -/

/-- Helper: every COCO annotation generated for one image has id
`i*1000 + (a + off) + 1` for some offset below the image's annotation
count, and `image_id = i + 1`. -/
theorem cocoAnnosOfItem_id_shape (cats : List CocoCategory) (annos : List RawAnno) :
    ∀ (i a : ℕ) (ca : CocoAnno), ca ∈ cocoAnnosOfItem cats i a annos →
      ∃ off, off < annos.length ∧ ca.id = i * 1000 + (a + off) + 1 ∧ ca.image_id = i + 1 := by
  induction annos with
  | nil => intro i a ca h; cases h
  | cons an rest ih =>
    intro i a ca h
    rcases List.mem_cons.mp h with rfl | h'
    · exact ⟨0, by simp, by dsimp only; omega, rfl⟩
    · obtain ⟨off, hoff, h1, h2⟩ := ih i (a + 1) ca h'
      exact ⟨off + 1, by simpa using Nat.succ_lt_succ hoff, by omega, h2⟩

/-- Helper: the ids inside one image's block are strictly increasing. -/
theorem cocoAnnosOfItem_pairwise (cats : List CocoCategory) (annos : List RawAnno) :
    ∀ (i a : ℕ), (cocoAnnosOfItem cats i a annos).Pairwise (fun x y => x.id < y.id) := by
  induction annos with
  | nil => intro i a; exact List.Pairwise.nil
  | cons an rest ih =>
    intro i a
    refine List.Pairwise.cons ?_ (ih i (a + 1))
    intro y hy
    obtain ⟨off, _, h1, _⟩ := cocoAnnosOfItem_id_shape cats rest i (a + 1) y hy
    simp only [h1]
    omega

/-- Helper: every id generated from image index `i` onward is at least
`i*1000 + 1`. -/
theorem cocoAnnosFrom_lb (cats : List CocoCategory) (data : List DataItem) :
    ∀ (i : ℕ) (ca : CocoAnno), ca ∈ cocoAnnosFrom cats i data →
      i * 1000 + 1 ≤ ca.id := by
  induction data with
  | nil => intro i ca h; cases h
  | cons item rest ih =>
    intro i ca h
    rcases List.mem_append.mp h with h' | h'
    · obtain ⟨off, _, h1, _⟩ := cocoAnnosOfItem_id_shape cats item.annos i 0 ca h'
      omega
    · have := ih (i + 1) ca h'
      omega

/-- Helper: when every image holds at most 1000 annotations, the whole
id sequence is strictly increasing. -/
theorem cocoAnnosFrom_pairwise (cats : List CocoCategory) (data : List DataItem)
    (hb : ∀ item ∈ data, item.annos.length ≤ 1000) :
    ∀ i, (cocoAnnosFrom cats i data).Pairwise (fun x y => x.id < y.id) := by
  induction data with
  | nil => intro i; exact List.Pairwise.nil
  | cons item rest ih =>
    intro i
    refine List.pairwise_append.mpr ⟨cocoAnnosOfItem_pairwise cats item.annos i 0, ?_, ?_⟩
    · exact ih (fun it hit => hb it (List.mem_cons_of_mem _ hit)) (i + 1)
    · intro x hx y hy
      obtain ⟨off, hoff, h1, _⟩ := cocoAnnosOfItem_id_shape cats item.annos i 0 x hx
      have hxle : x.id ≤ i * 1000 + 1000 := by
        have := hb item (List.mem_cons_self _ _)
        omega
      have hyge := cocoAnnosFrom_lb cats rest (i + 1) y hy
      omega

/-- Helper: the images array is 1-indexed from the given start. -/
theorem cocoImagesFrom_getD (rw rh : ℕ) (data : List DataItem) :
    ∀ (i k : ℕ), (h : k < data.length) →
    ((cocoImagesFrom rw rh i data).getD k ⟨0, "", 0, 0⟩).id = i + k + 1 := by
  induction data with
  | nil => intro i k h; cases h
  | cons item rest ih =>
    intro i k h
    cases k with
    | zero => rfl
    | succ k' =>
      have hk' : k' < rest.length := Nat.lt_of_succ_lt_succ h
      have := ih (i + 1) k' hk'
      simp only [cocoImagesFrom, List.getD_cons_succ, this]
      omega

/-- Helper: for every in-range image index and annotation index the
document contains an annotation carrying the scheme's id. -/
theorem cocoAnnosOfItem_mem_at (cats : List CocoCategory) (annos : List RawAnno) :
    ∀ (i a off : ℕ), off < annos.length →
      ∃ ca ∈ cocoAnnosOfItem cats i a annos,
        ca.id = i * 1000 + (a + off) + 1 ∧ ca.image_id = i + 1 := by
  induction annos with
  | nil => intro i a off hoff; cases hoff
  | cons an rest ih =>
    intro i a off hoff
    cases off with
    | zero =>
      refine ⟨_, List.mem_cons_self _ _, by dsimp only; omega, rfl⟩
    | succ off' =>
      obtain ⟨ca, hm, h1, h2⟩ := ih i (a + 1) off' (by simpa using Nat.lt_of_succ_lt_succ hoff)
      exact ⟨ca, List.mem_cons_of_mem _ hm, by omega, h2⟩

/-- Helper: lift the per-image id existence to the whole document. -/
theorem cocoAnnosFrom_mem_at (cats : List CocoCategory) (data : List DataItem) :
    ∀ (i0 i : ℕ) (hi : i < data.length) (a : ℕ),
      a < (data.get ⟨i, hi⟩).annos.length →
      ∃ ca ∈ cocoAnnosFrom cats i0 data,
        ca.id = (i0 + i) * 1000 + a + 1 ∧ ca.image_id = i0 + i + 1 := by
  induction data with
  | nil => intro i0 i hi; cases hi
  | cons item rest ih =>
    intro i0 i hi a ha
    cases i with
    | zero =>
      obtain ⟨ca, hm, h1, h2⟩ := cocoAnnosOfItem_mem_at cats item.annos i0 0 a ha
      exact ⟨ca, List.mem_append_left _ hm, by omega, by omega⟩
    | succ i' =>
      have hi' : i' < rest.length := Nat.lt_of_succ_lt_succ hi
      obtain ⟨ca, hm, h1, h2⟩ := ih (i0 + 1) i' hi' a (by simpa using ha)
      exact ⟨ca, List.mem_append_right _ hm, by omega, by omega⟩

set_option maxRecDepth 10000 in
/-- Claim C6 (counterexample): the annotation ids are not globally unique
in every export.  With 1001 annotations on the first image and one on the
second, position 1000 (image 0, annotation index 1000) and position 1001
(image 1, annotation index 0) both receive id 1001. -/
theorem c6_global_uniqueness_counterexample :
    (formatAsCOCO boxClasses 10 10 collideData).annos.length = 1002
    ∧ ((formatAsCOCO boxClasses 10 10 collideData).annos.getD 1000
        ⟨0, 0, 0, ⟨0, 0, 0, 0⟩, 0, 0⟩).id = 1001
    ∧ ((formatAsCOCO boxClasses 10 10 collideData).annos.getD 1001
        ⟨0, 0, 0, ⟨0, 0, 0, 0⟩, 0, 0⟩).id = 1001
    ∧ ¬ ((formatAsCOCO boxClasses 10 10 collideData).annos.map CocoAnno.id).Nodup := by
  refine ⟨by decide, by decide, by decide, ?_⟩
  intro h
  have hcount := List.nodup_iff_count_le_one.mp h 1001
  have h2 : ((formatAsCOCO boxClasses 10 10 collideData).annos.map CocoAnno.id).count 1001
      = 2 := by decide
  omega

/-- Claim C6 (amended): the images array is 1-indexed by image order, each
(image i, annotation a) pair yields an annotation with
`id = i*1000 + a + 1` and `image_id = i + 1`, and these ids are globally
unique PROVIDED every image carries at most 1000 annotations; with 1001 or
more annotations on one image the scheme collides. -/
theorem c6_coco_id_allocation (classes : List AnnoClass) (rw rh : ℕ)
    (data : List DataItem)
    (hb : ∀ item ∈ data, item.annos.length ≤ 1000) :
    (∀ k, (h : k < data.length) →
        ((formatAsCOCO classes rw rh data).images.getD k ⟨0, "", 0, 0⟩).id = k + 1)
    ∧ (∀ i, (hi : i < data.length) → ∀ a, a < (data.get ⟨i, hi⟩).annos.length →
        ∃ ca ∈ (formatAsCOCO classes rw rh data).annos,
          ca.id = i * 1000 + a + 1 ∧ ca.image_id = i + 1)
    ∧ ((formatAsCOCO classes rw rh data).annos.map CocoAnno.id).Nodup := by
  refine ⟨?_, ?_, ?_⟩
  · intro k h
    have := cocoImagesFrom_getD rw rh data 0 k h
    simpa using this
  · intro i hi a ha
    obtain ⟨ca, hm, h1, h2⟩ :=
      cocoAnnosFrom_mem_at (cocoCategoriesFrom 0 classes) data 0 i hi a ha
    exact ⟨ca, hm, by omega, by omega⟩
  · have hp := cocoAnnosFrom_pairwise (cocoCategoriesFrom 0 classes) data hb 0
    have hlt : ((formatAsCOCO classes rw rh data).annos.map CocoAnno.id).Pairwise (· < ·) :=
      List.pairwise_map.mpr hp
    exact hlt.imp ne_of_lt

/-- Claim C6 (witness): the amended statement on the single-image export. -/
theorem c6_coco_id_allocation_witness :
    ∃ ca ∈ (formatAsCOCO boxClasses 100 100 singleData).annos,
      ca.id = 0 * 1000 + 0 + 1 ∧ ca.image_id = 0 + 1 :=
  (c6_coco_id_allocation boxClasses 100 100 singleData (by decide)).2.1 0 (by decide) 0
    (by decide)

/-! ## Claim C1 -/

/-- Helper: restoring after the position block equals restoring the
original object — the block only writes fields the restore overwrites,
and only when the baseline lookup succeeds. -/
theorem restoreObj_posStep (stb : Bool) (rX rY rZ : ℚ)
    (tr : List (ℕ × TransformEntry)) (li : List (ℕ × LightEntry))
    (s : ℕ → ℚ) (o : SceneObject) (k : ℕ) :
    restoreObj tr li ((posStep stb rX rY rZ tr s o k).1) = restoreObj tr li o := by
  cases o with
  | mk uuid pos rot sc uL uC tL dL it col =>
    unfold posStep
    dsimp only
    split
    · cases htr : mapGet tr uuid with
      | none => rfl
      | some t =>
        dsimp only
        unfold restoreObj
        dsimp only
        rw [htr]
    · rfl

/-- Helper: restoring after the rotation block equals restoring the
original object. -/
theorem restoreObj_rotStep (piQ : ℚ) (stb : Bool) (rX rY rZ : ℚ)
    (tr : List (ℕ × TransformEntry)) (li : List (ℕ × LightEntry))
    (s : ℕ → ℚ) (o : SceneObject) (k : ℕ) :
    restoreObj tr li ((rotStep piQ stb rX rY rZ tr s o k).1) = restoreObj tr li o := by
  cases o with
  | mk uuid pos rot sc uL uC tL dL it col =>
    unfold rotStep
    dsimp only
    split
    · cases htr : mapGet tr uuid with
      | none => rfl
      | some t =>
        dsimp only
        unfold restoreObj
        dsimp only
        rw [htr]
    · rfl

/-- Helper: restoring after the scale block equals restoring the original
object. -/
theorem restoreObj_scaleStep (stb uniform : Bool) (rmin rmax : ℚ)
    (tr : List (ℕ × TransformEntry)) (li : List (ℕ × LightEntry))
    (s : ℕ → ℚ) (o : SceneObject) (k : ℕ) :
    restoreObj tr li ((scaleStep stb uniform rmin rmax tr s o k).1) = restoreObj tr li o := by
  cases o with
  | mk uuid pos rot sc uL uC tL dL it col =>
    unfold scaleStep
    dsimp only
    split
    · cases htr : mapGet tr uuid with
      | none => rfl
      | some t =>
        dsimp only
        split
        · unfold restoreObj
          dsimp only
          rw [htr]
        · unfold restoreObj
          dsimp only
          rw [htr]
    · rfl

/-- Helper: restoring after the light block equals restoring the original
object — the block runs only for lights with a recorded light baseline,
exactly the objects whose intensity and color the restore overwrites. -/
theorem restoreObj_lightStep (stb : Bool) (imin imax colorVariation : ℚ)
    (tr : List (ℕ × TransformEntry)) (li : List (ℕ × LightEntry))
    (s : ℕ → ℚ) (o : SceneObject) (k : ℕ) :
    restoreObj tr li ((lightStep stb imin imax colorVariation li s o k).1)
      = restoreObj tr li o := by
  cases o with
  | mk uuid pos rot sc uL uC tL dL it col =>
    unfold lightStep
    dsimp only
    split
    · rename_i hguard
      cases hli : mapGet li uuid with
      | none => rfl
      | some l =>
        dsimp only
        have huL : uL = true := by
          cases uL
          · simp at hguard
          · rfl
        have htL : tL = true := by
          cases tL
          · rw [huL] at hguard; simp at hguard
          · rfl
        split
        · unfold restoreObj
          dsimp only
          cases htr : mapGet tr uuid with
          | none =>
            simp only [huL, htL, Bool.and_self, if_true]
            rw [hli]
          | some t =>
            simp only [huL, htL, Bool.and_self, if_true]
            rw [hli]
        · unfold restoreObj
          dsimp only
          cases htr : mapGet tr uuid with
          | none =>
            simp only [huL, htL, Bool.and_self, if_true]
            rw [hli]
          | some t =>
            simp only [huL, htL, Bool.and_self, if_true]
            rw [hli]
    · rfl

/-- Helper: restoring after one object's whole randomization pass equals
restoring the original object. -/
theorem restoreObj_randomizeObject (piQ : ℚ) (st : RandomizationSettings)
    (tr : List (ℕ × TransformEntry)) (li : List (ℕ × LightEntry))
    (s : ℕ → ℚ) (o : SceneObject) (k : ℕ) :
    restoreObj tr li ((randomizeObject piQ st tr li s o k).1) = restoreObj tr li o := by
  unfold randomizeObject
  split
  · rfl
  · rw [restoreObj_lightStep, restoreObj_scaleStep, restoreObj_rotStep, restoreObj_posStep]

/-- Helper: restoring after randomizing the whole scene equals restoring
the unrandomized scene. -/
theorem restore_randomizeList (piQ : ℚ) (st : RandomizationSettings)
    (tr : List (ℕ × TransformEntry)) (li : List (ℕ × LightEntry)) (s : ℕ → ℚ) :
    ∀ (objs : List SceneObject) (k : ℕ),
    restoreOriginalScene tr li ((randomizeList piQ st tr li s objs k).1)
      = restoreOriginalScene tr li objs := by
  intro objs
  induction objs with
  | nil => intro k; rfl
  | cons o os ih =>
    intro k
    unfold randomizeList restoreOriginalScene
    dsimp only [List.map_cons]
    rw [restoreObj_randomizeObject]
    have := ih ((randomizeObject piQ st tr li s o k).2)
    unfold restoreOriginalScene at this
    rw [this]

/-- Helper: association-list lookup with distinct keys finds each stored
pair. -/
theorem find_assoc_nodup {B : Type} (l : List (ℕ × B)) :
    (l.map Prod.fst).Nodup → ∀ p ∈ l, mapGet l p.1 = some p.2 := by
  induction l with
  | nil => intro _ p hp; cases hp
  | cons q rest ih =>
    intro hnd p hp
    rcases List.mem_cons.mp hp with rfl | hp'
    · unfold mapGet
      rw [List.find?_cons_of_pos _ (by simp)]
      rfl
    · have hne : (q.1 == p.1) = false := by
        rw [beq_eq_false_iff_ne]
        intro he
        have hmem : p.1 ∈ rest.map Prod.fst := List.mem_map_of_mem _ hp'
        rw [← he] at hmem
        exact (List.nodup_cons.mp hnd).1 hmem
      unfold mapGet
      rw [List.find?_cons_of_neg _ (by simp [hne])]
      exact ih (List.nodup_cons.mp hnd).2 p hp'

/-- Helper: with distinct uuids, the captured transform baseline of each
scene object is its own pose. -/
theorem mapGet_captureTransforms (objs : List SceneObject)
    (hnd : (objs.map SceneObject.uuid).Nodup) (o : SceneObject) (ho : o ∈ objs) :
    mapGet (captureTransforms objs) o.uuid = some (transformEntryOf o) := by
  have hkeys : ((captureTransforms objs).map Prod.fst).Nodup := by
    unfold captureTransforms
    rw [List.map_reverse, List.map_map]
    refine List.nodup_reverse.mpr ?_
    simpa [Function.comp] using hnd
  have hmem : (o.uuid, transformEntryOf o) ∈ captureTransforms objs := by
    unfold captureTransforms
    rw [List.mem_reverse]
    exact List.mem_map_of_mem _ ho
  exact find_assoc_nodup _ hkeys _ hmem

/-- Helper: with distinct uuids, the captured light baseline of each light
is its own intensity and color. -/
theorem mapGet_captureLights (objs : List SceneObject)
    (hnd : (objs.map SceneObject.uuid).Nodup) (o : SceneObject) (ho : o ∈ objs)
    (hl : (o.userDataIsLight && o.isThreeLight) = true) :
    mapGet (captureLights objs) o.uuid = some (lightEntryOf o) := by
  have hsub : ((objs.filter (fun oo => oo.userDataIsLight && oo.isThreeLight)).map
      SceneObject.uuid).Sublist (objs.map SceneObject.uuid) :=
    (List.filter_sublist _).map _
  have hkeys : ((captureLights objs).map Prod.fst).Nodup := by
    unfold captureLights
    rw [List.map_reverse, List.map_map]
    refine List.nodup_reverse.mpr ?_
    have := hsub.nodup hnd
    simpa [Function.comp] using this
  have hmem : (o.uuid, lightEntryOf o) ∈ captureLights objs := by
    unfold captureLights
    rw [List.mem_reverse]
    exact List.mem_map_of_mem _ (List.mem_filter.mpr ⟨ho, hl⟩)
  exact find_assoc_nodup _ hkeys _ hmem

/-- Helper: restore immediately after capture is the identity on the
scene (the spec's restore-then-capture round-trip). -/
theorem restore_capture_id (objs : List SceneObject)
    (hnd : (objs.map SceneObject.uuid).Nodup) :
    restoreOriginalScene (captureTransforms objs) (captureLights objs) objs = objs := by
  have hobj : ∀ o ∈ objs,
      restoreObj (captureTransforms objs) (captureLights objs) o = o := by
    intro o ho
    have htr := mapGet_captureTransforms objs hnd o ho
    cases o with
    | mk uuid pos rot sc uL uC tL dL it col =>
      unfold restoreObj
      rw [htr]
      dsimp only [transformEntryOf]
      by_cases hl : (uL && tL) = true
      · rw [if_pos (by simpa using hl)]
        have hli := mapGet_captureLights objs hnd _ ho hl
        rw [hli]
        rfl
      · rw [if_neg (by simpa using hl)]
  unfold restoreOriginalScene
  calc objs.map (restoreObj (captureTransforms objs) (captureLights objs))
      = objs.map id := List.map_congr_left (fun o ho => hobj o ho)
    _ = objs := List.map_id objs

/-- Claim C1: for every scene with distinct object uuids, every
randomization configuration and any two `Math.random()` histories,
`capture(); randomize(); randomize(); restore(baseline)` returns every
object's position, rotation and scale — and every light's intensity and
color — exactly to the captured baseline: each randomize pass perturbs
from the baseline maps, never from the previously randomized state, and
the final restore overwrites everything any pass wrote. -/
theorem c1_capture_randomize_restore (piQ : ℚ) (st : RandomizationSettings)
    (objs : List SceneObject) (s1 s2 : ℕ → ℚ) (k1 k2 : ℕ)
    (hnd : (objs.map SceneObject.uuid).Nodup) :
    restoreOriginalScene (captureTransforms objs) (captureLights objs)
      ((handleRandomizeScene piQ st (captureTransforms objs) (captureLights objs) s2
        ((handleRandomizeScene piQ st (captureTransforms objs) (captureLights objs)
          s1 objs k1).1) k2).1)
      = objs := by
  unfold handleRandomizeScene
  by_cases he : st.enabled
  · simp only [he, if_true]
    rw [restore_randomizeList, restore_randomizeList]
    exact restore_capture_id objs hnd
  · simp only [he, if_false, Bool.false_eq_true]
    exact restore_capture_id objs hnd

/-- Claim C1 (witness): the round-trip evaluated on a one-object scene
with the position-only configuration and two zero randomness histories. -/
theorem c1_capture_randomize_restore_witness :
    (([elevObj].map SceneObject.uuid).Nodup)
    ∧ restoreOriginalScene (captureTransforms [elevObj]) (captureLights [elevObj])
        ((handleRandomizeScene 3 posOnlySettings (captureTransforms [elevObj])
          (captureLights [elevObj]) zeroStream
          ((handleRandomizeScene 3 posOnlySettings (captureTransforms [elevObj])
            (captureLights [elevObj]) zeroStream [elevObj] 0).1) 0).1)
        = [elevObj] :=
  ⟨by decide,
   c1_capture_randomize_restore 3 posOnlySettings [elevObj] zeroStream zeroStream 0 0
     (by decide)⟩

/-! ## Claim C9 -/

/-- Helper: the position block consumes an aligned segment of the
randomness history — its result depends only on the draws it reads. -/
theorem posStep_shift (stb : Bool) (rX rY rZ : ℚ) (tr : List (ℕ × TransformEntry))
    (s1 s2 : ℕ → ℚ) (o : SceneObject) (k1 k2 : ℕ)
    (h : ∀ n, s1 (k1 + n) = s2 (k2 + n)) :
    (posStep stb rX rY rZ tr s1 o k1).1 = (posStep stb rX rY rZ tr s2 o k2).1
    ∧ ∃ c, (posStep stb rX rY rZ tr s1 o k1).2 = k1 + c
        ∧ (posStep stb rX rY rZ tr s2 o k2).2 = k2 + c := by
  have e0 : s1 k1 = s2 k2 := by simpa using h 0
  have e1 : s1 (k1 + 1) = s2 (k2 + 1) := h 1
  have e2 : s1 (k1 + 2) = s2 (k2 + 2) := h 2
  unfold posStep
  split
  · cases htr : mapGet tr o.uuid with
    | none => exact ⟨rfl, 0, rfl, rfl⟩
    | some t => exact ⟨by rw [e0, e1, e2], 3, rfl, rfl⟩
  · exact ⟨rfl, 0, rfl, rfl⟩

/-- Helper: the rotation block consumes an aligned segment of the
randomness history. -/
theorem rotStep_shift (piQ : ℚ) (stb : Bool) (rX rY rZ : ℚ)
    (tr : List (ℕ × TransformEntry)) (s1 s2 : ℕ → ℚ) (o : SceneObject) (k1 k2 : ℕ)
    (h : ∀ n, s1 (k1 + n) = s2 (k2 + n)) :
    (rotStep piQ stb rX rY rZ tr s1 o k1).1 = (rotStep piQ stb rX rY rZ tr s2 o k2).1
    ∧ ∃ c, (rotStep piQ stb rX rY rZ tr s1 o k1).2 = k1 + c
        ∧ (rotStep piQ stb rX rY rZ tr s2 o k2).2 = k2 + c := by
  have e0 : s1 k1 = s2 k2 := by simpa using h 0
  have e1 : s1 (k1 + 1) = s2 (k2 + 1) := h 1
  have e2 : s1 (k1 + 2) = s2 (k2 + 2) := h 2
  unfold rotStep
  split
  · cases htr : mapGet tr o.uuid with
    | none => exact ⟨rfl, 0, rfl, rfl⟩
    | some t => exact ⟨by rw [e0, e1, e2], 3, rfl, rfl⟩
  · exact ⟨rfl, 0, rfl, rfl⟩

/-- Helper: the scale block consumes an aligned segment of the randomness
history (one draw when uniform, four otherwise). -/
theorem scaleStep_shift (stb uniform : Bool) (rmin rmax : ℚ)
    (tr : List (ℕ × TransformEntry)) (s1 s2 : ℕ → ℚ) (o : SceneObject) (k1 k2 : ℕ)
    (h : ∀ n, s1 (k1 + n) = s2 (k2 + n)) :
    (scaleStep stb uniform rmin rmax tr s1 o k1).1
      = (scaleStep stb uniform rmin rmax tr s2 o k2).1
    ∧ ∃ c, (scaleStep stb uniform rmin rmax tr s1 o k1).2 = k1 + c
        ∧ (scaleStep stb uniform rmin rmax tr s2 o k2).2 = k2 + c := by
  have e0 : s1 k1 = s2 k2 := by simpa using h 0
  have e1 : s1 (k1 + 1) = s2 (k2 + 1) := h 1
  have e2 : s1 (k1 + 2) = s2 (k2 + 2) := h 2
  have e3 : s1 (k1 + 3) = s2 (k2 + 3) := h 3
  unfold scaleStep
  split
  · cases htr : mapGet tr o.uuid with
    | none => exact ⟨rfl, 0, rfl, rfl⟩
    | some t =>
      dsimp only
      split
      · exact ⟨by rw [e0], 1, rfl, rfl⟩
      · exact ⟨by rw [e1, e2, e3], 4, rfl, rfl⟩
  · exact ⟨rfl, 0, rfl, rfl⟩

/-- Helper: the light block consumes an aligned segment of the randomness
history (one draw, plus three for the color jitter when active). -/
theorem lightStep_shift (stb : Bool) (imin imax colorVariation : ℚ)
    (li : List (ℕ × LightEntry)) (s1 s2 : ℕ → ℚ) (o : SceneObject) (k1 k2 : ℕ)
    (h : ∀ n, s1 (k1 + n) = s2 (k2 + n)) :
    (lightStep stb imin imax colorVariation li s1 o k1).1
      = (lightStep stb imin imax colorVariation li s2 o k2).1
    ∧ ∃ c, (lightStep stb imin imax colorVariation li s1 o k1).2 = k1 + c
        ∧ (lightStep stb imin imax colorVariation li s2 o k2).2 = k2 + c := by
  have e0 : s1 k1 = s2 k2 := by simpa using h 0
  have e1 : s1 (k1 + 1) = s2 (k2 + 1) := h 1
  have e2 : s1 (k1 + 2) = s2 (k2 + 2) := h 2
  have e3 : s1 (k1 + 3) = s2 (k2 + 3) := h 3
  unfold lightStep
  split
  · cases hli : mapGet li o.uuid with
    | none => exact ⟨rfl, 0, rfl, rfl⟩
    | some l =>
      dsimp only
      split
      · exact ⟨by rw [e0, e1, e2, e3], 4, rfl, rfl⟩
      · exact ⟨by rw [e0], 1, rfl, rfl⟩
  · exact ⟨rfl, 0, rfl, rfl⟩

/-- Helper: one object's whole randomization pass is a function of the
baseline, the configuration and the randomness segment it consumes. -/
theorem randomizeObject_shift (piQ : ℚ) (st : RandomizationSettings)
    (tr : List (ℕ × TransformEntry)) (li : List (ℕ × LightEntry))
    (s1 s2 : ℕ → ℚ) (o : SceneObject) (k1 k2 : ℕ)
    (h : ∀ n, s1 (k1 + n) = s2 (k2 + n)) :
    (randomizeObject piQ st tr li s1 o k1).1 = (randomizeObject piQ st tr li s2 o k2).1
    ∧ ∃ c, (randomizeObject piQ st tr li s1 o k1).2 = k1 + c
        ∧ (randomizeObject piQ st tr li s2 o k2).2 = k2 + c := by
  unfold randomizeObject
  split
  · exact ⟨rfl, 0, rfl, rfl⟩
  · obtain ⟨hpe, c1, ha1, hb1⟩ := posStep_shift st.positionEnabled st.positionRange.x
      st.positionRange.y st.positionRange.z tr s1 s2 o k1 k2 h
    have h1 : ∀ n, s1 (k1 + c1 + n) = s2 (k2 + c1 + n) := by
      intro n
      have := h (c1 + n)
      rw [← Nat.add_assoc, ← Nat.add_assoc] at this
      exact this
    dsimp only
    rw [hpe, ha1, hb1]
    obtain ⟨hre, c2, ha2, hb2⟩ := rotStep_shift piQ st.rotationEnabled st.rotationRange.x
      st.rotationRange.y st.rotationRange.z tr s1 s2 _ (k1 + c1) (k2 + c1) h1
    have h2 : ∀ n, s1 (k1 + c1 + c2 + n) = s2 (k2 + c1 + c2 + n) := by
      intro n
      have := h1 (c2 + n)
      rw [← Nat.add_assoc, ← Nat.add_assoc] at this
      exact this
    rw [hre, ha2, hb2]
    obtain ⟨hse, c3, ha3, hb3⟩ := scaleStep_shift st.scaleEnabled st.scaleUniform st.rmin
      st.rmax tr s1 s2 _ (k1 + c1 + c2) (k2 + c1 + c2) h2
    have h3 : ∀ n, s1 (k1 + c1 + c2 + c3 + n) = s2 (k2 + c1 + c2 + c3 + n) := by
      intro n
      have := h2 (c3 + n)
      rw [← Nat.add_assoc, ← Nat.add_assoc] at this
      exact this
    rw [hse, ha3, hb3]
    obtain ⟨hle, c4, ha4, hb4⟩ := lightStep_shift st.lightingEnabled st.imin st.imax
      st.colorVariation li s1 s2 _ (k1 + c1 + c2 + c3) (k2 + c1 + c2 + c3) h3
    refine ⟨hle, c1 + c2 + c3 + c4, ?_, ?_⟩
    · rw [ha4]; omega
    · rw [hb4]; omega

/-- Helper: the scene-wide randomization pass is a function of the
baseline maps, the configuration and the consumed randomness segment. -/
theorem randomizeList_shift (piQ : ℚ) (st : RandomizationSettings)
    (tr : List (ℕ × TransformEntry)) (li : List (ℕ × LightEntry))
    (s1 s2 : ℕ → ℚ) :
    ∀ (objs : List SceneObject) (k1 k2 : ℕ),
    (∀ n, s1 (k1 + n) = s2 (k2 + n)) →
    (randomizeList piQ st tr li s1 objs k1).1 = (randomizeList piQ st tr li s2 objs k2).1
    ∧ ∃ c, (randomizeList piQ st tr li s1 objs k1).2 = k1 + c
        ∧ (randomizeList piQ st tr li s2 objs k2).2 = k2 + c := by
  intro objs
  induction objs with
  | nil => intro k1 k2 h; exact ⟨rfl, 0, rfl, rfl⟩
  | cons o os ih =>
    intro k1 k2 h
    obtain ⟨hoe, c1, ha1, hb1⟩ := randomizeObject_shift piQ st tr li s1 s2 o k1 k2 h
    have h1 : ∀ n, s1 (k1 + c1 + n) = s2 (k2 + c1 + n) := by
      intro n
      have := h (c1 + n)
      rw [← Nat.add_assoc, ← Nat.add_assoc] at this
      exact this
    unfold randomizeList
    dsimp only
    rw [hoe, ha1, hb1]
    obtain ⟨hre, c2, ha2, hb2⟩ := ih (k1 + c1) (k2 + c1) h1
    rw [hre, ha2, hb2]
    exact ⟨rfl, c1 + c2, by omega, by omega⟩

/-- Claim C9 (counterexample): the code draws its randomness from the
ambient global `Math.random()`, which cannot be seeded — there is no
injected source.  Two consecutive `handleRandomizeScene` calls from the
same baseline with the same configuration necessarily consume successive
segments of the one global history (the cursor returned by the first call
feeds the second), and here they produce different positions, so equal
configuration and baseline do not reproduce equal results. -/
theorem c9_no_seed_counterexample :
    (let tr := captureTransforms [elevObj]
     let li := captureLights [elevObj]
     let first := handleRandomizeScene 3 posOnlySettings tr li stepStream [elevObj] 0
     let second := handleRandomizeScene 3 posOnlySettings tr li stepStream [elevObj] first.2
     (first.1.getD 0 elevObj).position ≠ (second.1.getD 0 elevObj).position) := by
  decide

/-- Claim C9 (amended): randomization is deterministic in the baseline,
the configuration and the randomness it actually consumes — two
`handleRandomizeScene` runs whose histories agree on the draws from their
respective cursors onward produce identical scenes (and advance their
cursors equally). -/
theorem c9_stream_determinism (piQ : ℚ) (st : RandomizationSettings)
    (tr : List (ℕ × TransformEntry)) (li : List (ℕ × LightEntry))
    (objs : List SceneObject) (s1 s2 : ℕ → ℚ) (k1 k2 : ℕ)
    (h : ∀ n, s1 (k1 + n) = s2 (k2 + n)) :
    (handleRandomizeScene piQ st tr li s1 objs k1).1
      = (handleRandomizeScene piQ st tr li s2 objs k2).1 := by
  unfold handleRandomizeScene
  by_cases he : st.enabled
  · simp only [he, if_true]
    exact (randomizeList_shift piQ st tr li s1 s2 objs k1 k2 h).1
  · simp only [he, if_false, Bool.false_eq_true]

/-- Claim C9 (witness): two runs reading the same draws from different
cursor positions produce the same randomized scene. -/
theorem c9_stream_determinism_witness :
    (handleRandomizeScene 3 posOnlySettings (captureTransforms [elevObj])
      (captureLights [elevObj]) (fun n => if n < 5 then 99 else 1/3) [elevObj] 5).1
    = (handleRandomizeScene 3 posOnlySettings (captureTransforms [elevObj])
      (captureLights [elevObj]) (fun _ => 1/3) [elevObj] 0).1 :=
  c9_stream_determinism 3 posOnlySettings (captureTransforms [elevObj])
    (captureLights [elevObj]) [elevObj] (fun n => if n < 5 then 99 else 1/3)
    (fun _ => 1/3) 5 0
    (by
      intro n
      have hge : ¬ (5 + n < 5) := by omega
      simp [hge])

end RatEval
